import Mathlib

/-!
# opencl-d2d-copy: a shallow embedding of `opencl-d2d-copy.cpp`

The program is a linear script of vendor (OpenCL) API calls.  The embedding
keeps the program's globals in a `State`, threads the state through every
routine, and records what the process does to the outside world: the API calls
it issues (`calls`), the lines it prints (`out`, `errout`) and the contents and
placement of the device buffers (`mem`, `owner`).  What the outside world
answers is an `Env`: the platforms and devices that enumeration reports, the
status returned by each API call, the readings of the clock and the values of
the random generator.

A routine is a function `State → Outcome α`: it returns normally (`ok`), ends
the process through `exit` (`halt`), indexes one of the handle arrays out of
range (`oob`), or stops on a fault (`fault`): the allocation of the host buffer
fails, or the `int` counter of the loop that fills it is incremented past
`INT_MAX`.

What is taken from outside the source: the C library's `atoi`, and the effect
of the vendor calls on the world (a blocking write copies the host buffer to
the device buffer, a read copies it back, a copy moves contents between device
buffers, a migration places a buffer on the device of the queue), and whether
the host can allocate the host buffer, of `buffer_size` doubles (`Env.alloc`).
The four handle arrays, of one pointer per platform or device that enumeration
reports, are taken to be allocated.  An array is indexed through `index`, and
the figures of a throughput line are exact rationals where the source computes
in `double`; `size_t` has 64 bits, so that `buffer_size * sizeof(double)` does
not wrap.
-/

namespace OpenCLD2D

/-! ## Machine integers -/

/-- Conversion of an integer value to `cl_uint` (32 bit, unsigned). -/
def to_cl_uint (v : Int) : Nat := (v % 4294967296).toNat

/-- Conversion of an unsigned value to `cl_int` (32 bit, two's complement). -/
def to_cl_int (v : Nat) : Int :=
  if v % 4294967296 < 2147483648 then ((v % 4294967296 : Nat) : Int)
  else ((v % 4294967296 : Nat) : Int) - 4294967296

def CL_SUCCESS : Int := 0

def EXIT_FAILURE : Int := 1

/-- The largest value of an `int` (32 bit, two's complement). -/
def INT_MAX : Nat := 2147483647

/-! ## The C library's `atoi` -/

/-- The characters `isspace` accepts in the C locale. -/
def isspace (c : Char) : Bool :=
  c.toNat = 32 || (9 ≤ c.toNat && c.toNat ≤ 13)

/-- Value of the longest prefix of decimal digits, continuing from `acc`. -/
def atoi_digits : List Char → Nat → Nat
  | [], acc => acc
  | c :: cs, acc => if c.isDigit then atoi_digits cs (acc * 10 + (c.toNat - 48)) else acc

/-- The optional sign and the digits that follow it. -/
def atoi_signed : List Char → Int
  | [] => 0
  | c :: cs =>
    if c = '-' then -((atoi_digits cs 0 : Nat) : Int)
    else if c = '+' then ((atoi_digits cs 0 : Nat) : Int)
    else ((atoi_digits (c :: cs) 0 : Nat) : Int)

/-- Skip leading white space, then read the signed number. -/
def atoi_chars : List Char → Int
  | [] => 0
  | c :: cs => if isspace c then atoi_chars cs else atoi_signed (c :: cs)

/-- The value `std::atoi` reads from a string: zero when no number starts it.
(C leaves values outside the range of `int` undefined; the model keeps the
mathematical value, which `to_cl_uint` then reduces modulo 2^32.) -/
def atoi (s : String) : Int := atoi_chars s.data

/-! ## Traces -/

/-- A vendor API call, with the handles it was given.  Platforms, devices,
queues and buffers are named by natural numbers: a platform by its position in
the enumeration, a device by its position under the selected platform, a queue
by the device it was created on, a buffer by its order of creation. -/
inductive ApiCall where
  | clGetPlatformIDs_count
  | clGetPlatformIDs_list (num : Nat)
  | clGetPlatformInfo (platform : Nat)
  | clGetDeviceIDs_count (platform : Nat)
  | clGetDeviceIDs_list (platform : Nat) (num : Nat)
  | clGetDeviceInfo (device : Nat)
  | clCreateContext (num : Nat)
  | clCreateCommandQueue (device : Nat)
  | clCreateBuffer (bytes : Nat)
  | clEnqueueWriteBuffer (queue : Nat) (buffer : Nat)
  | clEnqueueReadBuffer (queue : Nat) (buffer : Nat)
  | clEnqueueCopyBuffer (queue : Nat) (src : Nat) (dst : Nat)
  | clWaitForEvents
  | clEnqueueMigrateMemObjects (queue : Nat) (buffer : Nat)
  deriving DecidableEq, Repr

/-- The tag that opens a throughput line: `Hto%d`, `%dtoH`, `%dto%d`, `%dmg%d`. -/
inductive Tag where
  | Hto (i : Nat)
  | toH (i : Nat)
  | to (src : Nat) (i : Nat)
  | mg (i : Nat) (dst : Nat)
  deriving DecidableEq, Repr

/-- A line written to standard output or standard error. -/
inductive Line where
  /-- `Usage: %s <buffer_size>` -/
  | usage (prog : String)
  /-- `Parameter <buffer_size> must be greater than 8.` -/
  | size_error
  /-- `buffer_size: %d` -/
  | buffer_size (v : Int)
  /-- A fixed text. -/
  | text (s : String)
  /-- `Platform (i) name` -/
  | platform (i : Nat) (name : String)
  /-- `Platform (id) selected` -/
  | selected (id : Int)
  /-- `Device (i) name` -/
  | device (i : Nat) (name : String)
  /-- `tag: repeat times gb GB in secs seconds at rate GB/s` -/
  | throughput (tag : Tag) (times : Int) (gb : ℚ) (secs : ℚ) (rate : ℚ)
  /-- The message of `crash`. -/
  | crash (msg : String)
  /-- The diagnostic of `check_error_code`: operation and status. -/
  | api_error (operation : String) (code : Int)
  deriving DecidableEq

/-- Whether a line is a throughput line. -/
def Line.is_throughput : Line → Bool
  | .throughput _ _ _ _ _ => true
  | .usage _ => false
  | .size_error => false
  | .buffer_size _ => false
  | .text _ => false
  | .platform _ _ => false
  | .selected _ => false
  | .device _ _ => false
  | .crash _ => false
  | .api_error _ _ => false

/-- The routines of the program (for the log of routines entered). -/
inductive Routine where
  | initialize_platform
  | deinitialize_platform
  | profile_write_operation
  | profile_read_operation
  | profile_copy_operation
  | profile_migrate_operation
  deriving DecidableEq, Repr

/-! ## Environment and state -/

/-- The contents of a buffer: the bit patterns of its doubles. -/
abbrev Content := List Nat

/-- A platform as enumeration reports it. -/
structure Platform where
  name : String
  devices : List String

/-- What the outside world answers. -/
structure Env where
  /-- The platforms, in enumeration order, each with its devices. -/
  platforms : List Platform
  /-- The status returned by the `k`-th API call of the run (from 0). -/
  status : Nat → Int
  /-- The reading of the `k`-th call of `get_time` (from 0), in seconds. -/
  clock : Nat → ℚ
  /-- The `k`-th value drawn from the random distribution. -/
  dis : Nat → Nat
  /-- Whether the host can allocate an array of `n` doubles. -/
  alloc : Nat → Bool

/-- The globals of the program followed by the observable world. -/
structure State where
  err : Int
  platform_num : Nat
  platform_list : List Nat
  platform_id : Int
  device_num : Nat
  device_list : List Nat
  queue_list : List Nat
  buffer_size : Nat
  buffer_list : List Nat
  buffer_host : Content
  /-- Contents of each device buffer; `none` while uninitialised. -/
  mem : Nat → Option Content
  /-- The device each buffer is placed on. -/
  owner : Nat → Nat
  /-- Number of buffers created so far. -/
  created : Nat
  /-- Number of clock readings taken so far. -/
  ticks : Nat
  /-- The API calls issued so far, oldest first. -/
  calls : List ApiCall
  /-- Standard output, oldest line first. -/
  out : List Line
  /-- Standard error, oldest line first. -/
  errout : List Line
  /-- The routines entered so far, oldest first. -/
  entered : List Routine

/-- The state of the process when `main` starts. -/
def State.init : State where
  err := 0
  platform_num := 0
  platform_list := []
  platform_id := -1
  device_num := 0
  device_list := []
  queue_list := []
  buffer_size := 0
  buffer_list := []
  buffer_host := []
  mem := fun _ => none
  owner := fun k => k
  created := 0
  ticks := 0
  calls := []
  out := []
  errout := []
  entered := []

/-- A fault that stops the run. -/
inductive Fault where
  /-- An allocation with `new` failed: `std::bad_alloc` is thrown, nothing
  catches it, and `std::terminate` aborts the process. -/
  | bad_alloc
  /-- A signed counter was incremented past `INT_MAX`: the behaviour is undefined. -/
  | overflow
  deriving DecidableEq, Repr

/-- How a routine ends. -/
inductive Outcome (α : Type) where
  /-- Normal return. -/
  | ok (a : α) (s : State)
  /-- The process ended through `exit(code)`. -/
  | halt (code : Int) (s : State)
  /-- A handle array was indexed outside its bounds. -/
  | oob (s : State)
  /-- The run stopped on a fault. -/
  | fault (f : Fault) (s : State)

/-- The state in which a routine ended. -/
def Outcome.state {α : Type} : Outcome α → State
  | .ok _ s => s
  | .halt _ s => s
  | .oob s => s
  | .fault _ s => s

/-- A routine. -/
def M (α : Type) : Type := State → Outcome α

def M.pure {α : Type} (a : α) : M α := fun s => Outcome.ok a s

def M.bind {α β : Type} (m : M α) (f : α → M β) : M β := fun s =>
  match m s with
  | .ok a s1 => f a s1
  | .halt c s1 => .halt c s1
  | .oob s1 => .oob s1
  | .fault e s1 => .fault e s1

instance : Monad M where
  pure := M.pure
  bind := M.bind

/-! ## Primitives -/

/-- Read the globals. -/
def get : M State := fun s => .ok s s

/-- Update the state. -/
def modify (f : State → State) : M Unit := fun s => .ok () (f s)

/-- A `printf` or `std::cout` line. -/
def printf (l : Line) : M Unit := modify fun s => { s with out := s.out ++ [l] }

/-- A line on standard error. -/
def eprintf (l : Line) : M Unit := modify fun s => { s with errout := s.errout ++ [l] }

/-- The call `exit(code)`. -/
def c_exit {α : Type} (code : Int) : M α := fun s => .halt code s

/-- Record that a routine was entered. -/
def enter (r : Routine) : M Unit := modify fun s => { s with entered := s.entered ++ [r] }

/-- The element `xs[i]` of a handle array. -/
def index (xs : List Nat) (i : Nat) : M Nat := fun s =>
  match xs[i]? with
  | some v => .ok v s
  | none => .oob s

/-- The loop `for (k = 0; k < n; ++k) body(k)`, started at `i` with `n` rounds to go. -/
def loop_from (body : Nat → M Unit) : Nat → Nat → M Unit
  | _, 0 => pure ()
  | i, n + 1 => do body i; loop_from body (i + 1) n

/-- The loop `for (k = 0; k < n; ++k) body(k)`.  The bound is read once, on
entry: no loop of the program assigns the variable that bounds it
(`platform_num`, `device_num`, `repeat`). -/
def for_up_to (n : Nat) (body : Nat → M Unit) : M Unit := loop_from body 0 n

/-- Stop on a fault. -/
def stop {α : Type} (f : Fault) : M α := fun s => .fault f s

/-- The loop `for (int k = 0; k < n; ++k) body(k)` where `n` is unsigned,
started at `i` with `n` rounds to go.  The comparison is made in unsigned
arithmetic, so the loop goes on while `k < n`; the increment `++k` of a counter
that holds `INT_MAX` overflows. -/
def int_loop_from (body : Nat → M Unit) : Nat → Nat → M Unit
  | _, 0 => pure ()
  | i, n + 1 => do
    body i
    if i = INT_MAX then
      stop .overflow
    int_loop_from body (i + 1) n

/-- The loop `for (int k = 0; k < n; ++k) body(k)` where `n` is a `cl_uint`. -/
def for_int_up_to (n : Nat) (body : Nat → M Unit) : M Unit := int_loop_from body 0 n

/-- The allocation `new double[n]`: storage for `n` doubles, which the program
writes before it reads (zeros here), or `std::bad_alloc` when the host cannot
provide it. -/
def new_doubles (env : Env) (n : Nat) : M Content := fun s =>
  if env.alloc n = true then .ok (List.replicate n 0) s else .fault .bad_alloc s

/-- Return the current time in seconds since the epoch. -/
def get_time (env : Env) : M ℚ := fun s =>
  .ok (env.clock s.ticks) { s with ticks := s.ticks + 1 }

/-- Utility to print error message: `crash` writes the message and exits. -/
def crash {α : Type} (msg : String) : M α := do
  eprintf (.crash msg)
  c_exit EXIT_FAILURE

/-- Utility to check OpenCL error codes. -/
def check_error_code (err : Int) (operation : String) : M Unit := do
  if err ≠ CL_SUCCESS then
    eprintf (.api_error operation err)
    c_exit EXIT_FAILURE

/-- The macro `CHECK_ERROR(err, str)` where `err` is the global. -/
def CHECK_ERROR (operation : String) : M Unit := do
  let s ← get
  check_error_code s.err operation

/-- Issue an API call: log it and return the status the vendor answers. -/
def issue (env : Env) (c : ApiCall) : M Int := fun s =>
  .ok (env.status s.calls.length) { s with calls := s.calls ++ [c] }

/-- The assignment `err = ...` to the global. -/
def set_err (e : Int) : M Unit := modify fun s => { s with err := e }

/-! ## The vendor API

Each wrapper issues the call and, when the vendor answers `CL_SUCCESS`, applies
the effect of the call; a call that fails has no effect. -/

/-- The call `clGetPlatformIDs(0, nullptr, &platform_num)`. -/
def clGetPlatformIDs_count (env : Env) : M Int := do
  let st ← issue env .clGetPlatformIDs_count
  if st = CL_SUCCESS then
    modify fun s => { s with platform_num := env.platforms.length }
  pure st

/-- The call `clGetPlatformIDs(platform_num, platform_list, nullptr)`. -/
def clGetPlatformIDs_list (env : Env) (num : Nat) : M Int := do
  let st ← issue env (.clGetPlatformIDs_list num)
  if st = CL_SUCCESS then
    modify fun s => { s with platform_list := List.range num }
  pure st

/-- The call `clGetPlatformInfo(platform, CL_PLATFORM_NAME, ...)`: status and name. -/
def clGetPlatformInfo (env : Env) (platform : Nat) : M (Int × String) := do
  let st ← issue env (.clGetPlatformInfo platform)
  pure (st, ((env.platforms[platform]?).map Platform.name).getD "")

/-- The call `clGetDeviceIDs(platform, CL_DEVICE_TYPE_ALL, 0, nullptr, &device_num)`. -/
def clGetDeviceIDs_count (env : Env) (platform : Nat) : M Int := do
  let st ← issue env (.clGetDeviceIDs_count platform)
  if st = CL_SUCCESS then
    modify fun s =>
      { s with device_num := ((env.platforms[platform]?).map fun p => p.devices.length).getD 0 }
  pure st

/-- The call `clGetDeviceIDs(platform, CL_DEVICE_TYPE_ALL, device_num, device_list, nullptr)`. -/
def clGetDeviceIDs_list (env : Env) (platform : Nat) (num : Nat) : M Int := do
  let st ← issue env (.clGetDeviceIDs_list platform num)
  if st = CL_SUCCESS then
    modify fun s => { s with device_list := List.range num }
  pure st

/-- The call `clGetDeviceInfo(device, CL_DEVICE_NAME, ...)`: status and name. -/
def clGetDeviceInfo (env : Env) (device : Nat) : M (Int × String) := do
  let st ← issue env (.clGetDeviceInfo device)
  let s ← get
  pure (st, ((env.platforms[s.platform_id.toNat]?).bind fun p => p.devices[device]?).getD "")

/-- The call `clCreateContext(nullptr, device_num, device_list, nullptr, nullptr, &err)`. -/
def clCreateContext (env : Env) (num : Nat) : M Int :=
  issue env (.clCreateContext num)

/-- The call `clCreateCommandQueue(context, device, 0, &err)`: status and queue
(the null handle when the call fails). -/
def clCreateCommandQueue (env : Env) (device : Nat) : M (Int × Nat) := do
  let st ← issue env (.clCreateCommandQueue device)
  pure (st, if st = CL_SUCCESS then device else 0)

/-- The call `clCreateBuffer(context, CL_MEM_READ_WRITE, bytes, nullptr, &err)`:
status and a fresh, uninitialised buffer (the null handle when the call fails). -/
def clCreateBuffer (env : Env) (bytes : Nat) : M (Int × Nat) := do
  let st ← issue env (.clCreateBuffer bytes)
  if st = CL_SUCCESS then
    let s ← get
    modify fun s => { s with created := s.created + 1 }
    pure (st, s.created)
  else
    pure (st, 0)

/-- A blocking `clEnqueueWriteBuffer(queue, buffer, CL_TRUE, 0, bytes, host, ...)`:
the device buffer receives the host contents. -/
def clEnqueueWriteBuffer (env : Env) (queue buffer : Nat) (host : Content) : M Int := do
  let st ← issue env (.clEnqueueWriteBuffer queue buffer)
  if st = CL_SUCCESS then
    modify fun s => { s with mem := Function.update s.mem buffer (some host) }
  pure st

/-- A blocking `clEnqueueReadBuffer(queue, buffer, CL_TRUE, 0, bytes, buffer_host, ...)`:
the host buffer receives the contents of the device buffer. -/
def clEnqueueReadBuffer (env : Env) (queue buffer : Nat) : M Int := do
  let st ← issue env (.clEnqueueReadBuffer queue buffer)
  if st = CL_SUCCESS then
    modify fun s => { s with buffer_host := (s.mem buffer).getD [] }
  pure st

/-- The call `clEnqueueCopyBuffer(queue, src, dst, 0, 0, bytes, 0, nullptr, &event)`:
the destination buffer receives the contents of the source buffer. -/
def clEnqueueCopyBuffer (env : Env) (queue src dst : Nat) : M Int := do
  let st ← issue env (.clEnqueueCopyBuffer queue src dst)
  if st = CL_SUCCESS then
    modify fun s => { s with mem := Function.update s.mem dst (s.mem src) }
  pure st

/-- The call `clWaitForEvents(1, &event)`. -/
def clWaitForEvents (env : Env) : M Int :=
  issue env .clWaitForEvents

/-- The call `clEnqueueMigrateMemObjects(queue, 1, &buffer, 0, 0, nullptr, &event)`:
the buffer is placed on the device of the queue. -/
def clEnqueueMigrateMemObjects (env : Env) (queue buffer : Nat) : M Int := do
  let st ← issue env (.clEnqueueMigrateMemObjects queue buffer)
  if st = CL_SUCCESS then
    modify fun s => { s with owner := Function.update s.owner buffer queue }
  pure st

/-! ## The program -/

/-- The assignment `queue_list[i] = q`. -/
def store_queue (i q : Nat) : M Unit := fun s =>
  if i < s.queue_list.length then .ok () { s with queue_list := s.queue_list.set i q }
  else .oob s

/-- The assignment `buffer_list[i] = b`. -/
def store_buffer (i b : Nat) : M Unit := fun s =>
  if i < s.buffer_list.length then .ok () { s with buffer_list := s.buffer_list.set i b }
  else .oob s

def separator : Line :=
  .text "--------------------------------------------------------------------------------"

/-- The search of `initialize_platform` for the target platform: one round per
platform, in enumeration order. -/
def platform_search (env : Env) (platform_target : String) (platform_num : Nat) : M Unit :=
  for_up_to platform_num fun i => do
    let p ← index (← get).platform_list i
    let (st, platform_name) ← clGetPlatformInfo env p
    set_err st
    CHECK_ERROR "clGetPlatformInfo"
    printf (.platform i platform_name)
    -- Check if the current platform matches the target platform
    if platform_target = platform_name then
      modify fun s => { s with platform_id := to_cl_int i }

/-- The first part of `initialize_platform`: the platforms are enumerated. -/
def get_platforms (env : Env) : M Unit := do
  -- Get the number of available platforms
  set_err (← clGetPlatformIDs_count env)
  CHECK_ERROR "clGetPlatformIDs"
  -- Allocate memory to store platform IDs
  modify fun s => { s with platform_list := List.replicate s.platform_num 0 }
  set_err (← clGetPlatformIDs_list env (← get).platform_num)
  CHECK_ERROR "clGetPlatformIDs"
  printf (.text "  clGetPlatformIDs....... ok")

/-- The second part of `initialize_platform`: the target platform is searched
for and must have been found. -/
def select_platform (env : Env) (platform_target : String) : M Unit := do
  -- Get platform information and search for the target platform
  platform_search env platform_target (← get).platform_num
  -- Check if the target platform was found
  if (← get).platform_id < 0 then
    crash "Can't find the required platform"
  printf (.selected (← get).platform_id)

/-- The third part of `initialize_platform`: the devices of the selected
platform are enumerated, and there must be two of them. -/
def get_devices (env : Env) : M Unit := do
  -- Get number of devices in selected platform
  let platform ← index (← get).platform_list (← get).platform_id.toNat
  set_err (← clGetDeviceIDs_count env platform)
  CHECK_ERROR "clGetDeviceIDs"
  if (← get).device_num < 2 then
    crash "Not enough devices are available"
  printf (.text "  clGetDeviceIDs......... ok")
  -- Allocate memory to store device IDs
  modify fun s => { s with device_list := List.replicate s.device_num 0 }
  set_err (← clGetDeviceIDs_list env platform (← get).device_num)
  CHECK_ERROR "clGetDeviceIDs"
  -- Print the name of devices in the selected platform
  for_up_to (← get).device_num fun i => do
    let d ← index (← get).device_list i
    let (st, device_name) ← clGetDeviceInfo env d
    set_err st
    CHECK_ERROR "clGetDeviceInfo"
    printf (.device i device_name)

/-- The fourth part of `initialize_platform`: the context and one command
queue per device. -/
def create_queues (env : Env) : M Unit := do
  -- Create an OpenCL context
  set_err (← clCreateContext env (← get).device_num)
  CHECK_ERROR "clCreateContext"
  printf (.text "  clCreateContext........ ok")
  -- Create command queues for each device
  modify fun s => { s with queue_list := List.replicate s.device_num 0 }
  for_up_to (← get).device_num fun i => do
    let d ← index (← get).device_list i
    let (st, q) ← clCreateCommandQueue env d
    store_queue i q
    set_err st
    CHECK_ERROR "clCreateCommandQueue"
  printf (.text "  clCreateCommandQueue... ok")

/-- The last part of `initialize_platform`: one buffer per device, the host
array of random data, and the first write of every device buffer.  The host
array is allocated with `new double[buffer_size]`, which the host may refuse,
and filled by a loop whose counter is an `int` while `buffer_size` is a
`cl_uint`. -/
def create_buffers (env : Env) : M Unit := do
  -- Create buffers
  modify fun s => { s with buffer_list := List.replicate s.device_num 0 }
  for_up_to (← get).device_num fun i => do
    let (st, b) ← clCreateBuffer env ((← get).buffer_size * 8)
    store_buffer i b
    set_err st
    CHECK_ERROR "clCreateBuffer"
  -- Create a host array with random data
  let host ← new_doubles env (← get).buffer_size
  modify fun s => { s with buffer_host := host }
  for_int_up_to (← get).buffer_size fun i =>
    modify fun s => { s with buffer_host := s.buffer_host.set i (env.dis i) }
  -- Initialize device buffers with random data
  for_up_to (← get).device_num fun i => do
    let q ← index (← get).queue_list i
    let b ← index (← get).buffer_list i
    set_err (← clEnqueueWriteBuffer env q b (← get).buffer_host)
    CHECK_ERROR "clEnqueueWriteBuffer"
  printf (.text "  clCreateBuffer......... ok")

/-- The routine `initialize_platform`, its statements grouped in five parts
in the order of the source. -/
def initialize_platform (env : Env) (platform_target : String) : M Unit := do
  enter .initialize_platform
  printf separator
  get_platforms env
  select_platform env platform_target
  get_devices env
  create_queues env
  create_buffers env
  printf separator

def deinitialize_platform : M Unit := do
  enter .deinitialize_platform
  modify fun s => { s with platform_list := [] }
  modify fun s => { s with device_list := [] }
  modify fun s => { s with queue_list := [] }
  modify fun s => { s with buffer_list := [] }
  modify fun s => { s with buffer_host := [] }

/-- The figure `(double)buffer_size * sizeof(double) / 1e9`. -/
def gigabytes (buffer_size : Nat) : ℚ := (buffer_size : ℚ) * 8 / 1000000000

/-- The line printed by `profile_write_operation` for device `i`. -/
def write_line (buffer_size i : Nat) (repeat_ : Int) (time : ℚ) : Line :=
  .throughput (.Hto i) repeat_ (gigabytes buffer_size) time
    (gigabytes buffer_size / time * (repeat_ : ℚ))

/-- The line printed by `profile_read_operation` for device `i`. -/
def read_line (buffer_size i : Nat) (repeat_ : Int) (time : ℚ) : Line :=
  .throughput (.toH i) repeat_ (gigabytes buffer_size) time
    (gigabytes buffer_size / time * (repeat_ : ℚ))

/-- The line printed by `profile_copy_operation` for the pair `src`, `i`. -/
def copy_line (buffer_size src i : Nat) (repeat_ : Int) (time : ℚ) : Line :=
  .throughput (.to src i) repeat_ (gigabytes buffer_size) time
    (gigabytes buffer_size / time * (repeat_ : ℚ))

/-- The line printed by `profile_migrate_operation` for the pair `i`, `dst`. -/
def migrate_line (buffer_size i dst : Nat) (repeat_ : Int) (time : ℚ) : Line :=
  .throughput (.mg i dst) repeat_ (gigabytes buffer_size) (time / 2)
    (gigabytes buffer_size / time * 2 * (repeat_ : ℚ))

/-- One round of the inner loop of `profile_write_operation`. -/
def write_round (env : Env) (i : Nat) : M Unit := do
  let q ← index (← get).queue_list i
  let b ← index (← get).buffer_list i
  let err ← clEnqueueWriteBuffer env q b (← get).buffer_host
  check_error_code err "clEnqueueWriteBuffer"

def profile_write_operation (env : Env) (repeat_ : Int) : M Unit := do
  enter .profile_write_operation
  for_up_to (← get).device_num fun i => do
    let t0 ← get_time env
    for_up_to repeat_.toNat fun _ => write_round env i
    let time := (← get_time env) - t0
    printf (write_line (← get).buffer_size i repeat_ time)

/-- One round of the inner loop of `profile_read_operation`. -/
def read_round (env : Env) (i : Nat) : M Unit := do
  let q ← index (← get).queue_list i
  let b ← index (← get).buffer_list i
  let err ← clEnqueueReadBuffer env q b
  check_error_code err "clEnqueueReadBuffer"

def profile_read_operation (env : Env) (repeat_ : Int) : M Unit := do
  enter .profile_read_operation
  for_up_to (← get).device_num fun i => do
    let t0 ← get_time env
    for_up_to repeat_.toNat fun _ => read_round env i
    let time := (← get_time env) - t0
    printf (read_line (← get).buffer_size i repeat_ time)

/-- One round of the inner loop of `profile_copy_operation`. -/
def copy_round (env : Env) (src i : Nat) : M Unit := do
  let q ← index (← get).queue_list i
  let bsrc ← index (← get).buffer_list src
  let bdst ← index (← get).buffer_list i
  set_err (← clEnqueueCopyBuffer env q bsrc bdst)
  CHECK_ERROR "clEnqueueCopyBuffer"
  set_err (← clWaitForEvents env)
  CHECK_ERROR "clWaitForEvents"

def profile_copy_operation (env : Env) (repeat_ : Int) (src : Nat) : M Unit := do
  enter .profile_copy_operation
  for_up_to (← get).device_num fun i => do
    if i ≠ src then
      let t0 ← get_time env
      for_up_to repeat_.toNat fun _ => copy_round env src i
      let time := (← get_time env) - t0
      printf (copy_line (← get).buffer_size src i repeat_ time)

/-- One round of the inner loop of `profile_migrate_operation`.  The status
returned by `clEnqueueMigrateMemObjects` is not stored: the check that follows
reads the global `err`. -/
def migrate_round (env : Env) (dst i : Nat) : M Unit := do
  let q ← index (← get).queue_list dst
  let b ← index (← get).buffer_list i
  let _ ← clEnqueueMigrateMemObjects env q b
  CHECK_ERROR "clEnqueueMigrateMemObjects"
  set_err (← clWaitForEvents env)
  CHECK_ERROR "clWaitForEvents"
  -- To repeat the operation, we need to give it back to source
  let q ← index (← get).queue_list i
  let b ← index (← get).buffer_list dst
  let _ ← clEnqueueMigrateMemObjects env q b
  CHECK_ERROR "clEnqueueMigrateMemObjects"
  set_err (← clWaitForEvents env)
  CHECK_ERROR "clWaitForEvents"

def profile_migrate_operation (env : Env) (repeat_ : Int) (dst : Nat) : M Unit := do
  enter .profile_migrate_operation
  for_up_to (← get).device_num fun i => do
    if i ≠ dst then
      let t0 ← get_time env
      for_up_to repeat_.toNat fun _ => migrate_round env dst i
      let time := (← get_time env) - t0
      printf (migrate_line (← get).buffer_size i dst repeat_ time)

/-- The fixed script of `main` that follows `initialize_platform`. -/
def script (env : Env) : M Unit := do
  printf (.text "Profiling read and write operations with 100 repetitions")
  profile_write_operation env 100
  profile_read_operation env 100
  printf (.text "")
  printf (.text "Profiling copy from 0 to 1; first warm-up, then 100 repetitions")
  profile_copy_operation env 1 0
  profile_copy_operation env 100 0
  profile_copy_operation env 1 0
  printf (.text "")
  printf (.text "Profiling copy from 0 to 1; first update buffers, then 100 repetitions")
  profile_write_operation env 1
  profile_copy_operation env 100 0
  printf (.text "")
  printf (.text "Profiling ping-pong copy between 0 and 1, 3 times")
  profile_copy_operation env 1 1
  profile_copy_operation env 1 0
  profile_copy_operation env 1 1
  profile_copy_operation env 1 0
  profile_copy_operation env 1 1
  profile_copy_operation env 1 0
  printf (.text "")
  printf (.text "Profiling migrate operation to 0, first warm-up, then increase repetitions")
  profile_migrate_operation env 1 0
  profile_migrate_operation env 1 0
  profile_migrate_operation env 10 0
  profile_migrate_operation env 100 0

/-- The entry routine; `argv` holds `argc` strings.  The value returned is the
exit status. -/
def main (env : Env) (argv : List String) : M Int := do
  -- Check if correct number of arguments are provided
  if argv.length ≠ 2 then
    printf (.usage (argv.getD 0 ""))
    pure 1
  else
    modify fun s => { s with buffer_size := to_cl_uint (atoi (argv.getD 1 "")) }
    -- Check if buffer_size is greater than 8
    if (← get).buffer_size ≤ 8 then
      printf .size_error
      pure 1
    else
      printf (.buffer_size (to_cl_int (← get).buffer_size))
      initialize_platform env "Intel(R) OpenCL Graphics"
      script env
      deinitialize_platform
      pure 0

/-- A run of the process. -/
def run_main (env : Env) (argv : List String) : Outcome Int := main env argv State.init

/-! ## Specification vocabulary -/

/-- An outcome satisfies `Q` when it is a normal return, `H` when it is an
exit, and is never an access out of range or a fault. -/
def Outcome.sat {α : Type} (o : Outcome α) (Q : α → State → Prop) (H : Int → State → Prop) :
    Prop :=
  match o with
  | .ok a s => Q a s
  | .halt c s => H c s
  | .oob _ => False
  | .fault _ _ => False

/-- An outcome satisfies `Q` when it is a normal return, `H` when it is an
exit, `F` when it is a fault, and is never an access out of range. -/
def Outcome.ends {α : Type} (o : Outcome α) (Q : α → State → Prop) (H : Int → State → Prop)
    (F : Fault → State → Prop) : Prop :=
  match o with
  | .ok a s => Q a s
  | .halt c s => H c s
  | .oob _ => False
  | .fault f s => F f s

/-- The host buffer after `i` rounds of the loop that fills it. -/
def filled (env : Env) (host : Content) : Nat → Content
  | 0 => host
  | i + 1 => (filled env host i).set i (env.dis i)

/-- No throughput line is printed and no routine other than
`initialize_platform` was entered. -/
def Quiet (s : State) : Prop :=
  (∀ l ∈ s.out, l.is_throughput = false) ∧ ∀ r ∈ s.entered, r = Routine.initialize_platform

/-- Every API call of the run returns `CL_SUCCESS`. -/
def AllSucceed (env : Env) : Prop := ∀ k, env.status k = CL_SUCCESS

/-- One queue and one buffer per device. -/
def WF (s : State) : Prop :=
  s.queue_list.length = s.device_num ∧ s.buffer_list.length = s.device_num

/-- What setup guarantees to the script: one queue and one buffer per device,
and at least two devices. -/
def Inv (s : State) : Prop := WF s ∧ 2 ≤ s.device_num

/-- The device count and the two handle arrays are those of `s`. -/
def Same (s s1 : State) : Prop :=
  s1.device_num = s.device_num ∧ s1.queue_list = s.queue_list ∧ s1.buffer_list = s.buffer_list

/-- The queue handle `queue_list[i]`. -/
def State.queue (s : State) (i : Nat) : Nat := s.queue_list.getD i 0

/-- The buffer handle `buffer_list[i]`. -/
def State.buffer (s : State) (i : Nat) : Nat := s.buffer_list.getD i 0

/-- The time measured between the clock readings number `t` and `t + 1`. -/
def elapsed (env : Env) (t : Nat) : ℚ := env.clock (t + 1) - env.clock t

/-- The device indices below `i` other than `d`, in increasing order. -/
def others (d i : Nat) : List Nat := (List.range i).filter fun k => k ≠ d

/-- Number of throughput lines among the lines printed. -/
def throughput_lines (s : State) : Nat := s.out.countP Line.is_throughput

/-- The calls of platform and device enumeration. -/
def ApiCall.is_discovery : ApiCall → Bool
  | .clGetPlatformIDs_count => true
  | .clGetPlatformIDs_list _ => true
  | .clGetPlatformInfo _ => true
  | .clGetDeviceIDs_count _ => true
  | .clGetDeviceIDs_list _ _ => true
  | .clGetDeviceInfo _ => true
  | .clCreateContext _ => false
  | .clCreateCommandQueue _ => false
  | .clCreateBuffer _ => false
  | .clEnqueueWriteBuffer _ _ => false
  | .clEnqueueReadBuffer _ _ => false
  | .clEnqueueCopyBuffer _ _ _ => false
  | .clWaitForEvents => false
  | .clEnqueueMigrateMemObjects _ _ => false

/-- The process has so far done nothing but enumerate: every call issued is an
enumeration call, and the process is quiet. -/
def Discovering (s : State) : Prop :=
  (∀ c ∈ s.calls, c.is_discovery = true) ∧ Quiet s

/-- The name of platform `i`. -/
def Env.platform_name (env : Env) (i : Nat) : String :=
  ((env.platforms[i]?).map Platform.name).getD ""

/-- The number of devices of platform `i`. -/
def Env.device_count (env : Env) (i : Nat) : Nat :=
  ((env.platforms[i]?).map fun p => p.devices.length).getD 0

/-- The name of device `d` of platform `i`. -/
def Env.device_name (env : Env) (i d : Nat) : String :=
  ((env.platforms[i]?).bind fun p => p.devices[d]?).getD ""

/-- The value of `platform_id` after `i` rounds of the search that all passed
their check, from the initial value `id0`. -/
def platform_id_after (env : Env) (platform_target : String) (id0 : Int) : Nat → Int
  | 0 => id0
  | i + 1 =>
    if platform_target = env.platform_name i then to_cl_int i
    else platform_id_after env platform_target id0 i

/-! ### The four timed routines when every call succeeds -/

/-- State after `j` rounds of the inner loop of `profile_write_operation` for device `i`. -/
def write_rounds (i j : Nat) (s : State) : State :=
  { s with
    calls := s.calls ++ List.replicate j (.clEnqueueWriteBuffer (s.queue i) (s.buffer i))
    mem := if j = 0 then s.mem else Function.update s.mem (s.buffer i) (some s.buffer_host) }

/-- State after `profile_write_operation` has served the devices below `i`. -/
def write_served (env : Env) (repeat_ : Int) (s : State) (i : Nat) : State :=
  { s with
    ticks := s.ticks + 2 * i
    calls := s.calls ++ ((List.range i).map fun k =>
      List.replicate repeat_.toNat (ApiCall.clEnqueueWriteBuffer (s.queue k) (s.buffer k))).flatten
    out := s.out ++ (List.range i).map fun k =>
      write_line s.buffer_size k repeat_ (elapsed env (s.ticks + 2 * k))
    mem := fun h =>
      if repeat_.toNat ≠ 0 ∧ h ∈ s.buffer_list.take i then some s.buffer_host else s.mem h
    entered := s.entered ++ [.profile_write_operation] }

/-- State after `j` rounds of the inner loop of `profile_read_operation` for device `i`. -/
def read_rounds (i j : Nat) (s : State) : State :=
  { s with
    calls := s.calls ++ List.replicate j (.clEnqueueReadBuffer (s.queue i) (s.buffer i))
    buffer_host := if j = 0 then s.buffer_host else (s.mem (s.buffer i)).getD [] }

/-- State after `profile_read_operation` has served the devices below `i`. -/
def read_served (env : Env) (repeat_ : Int) (s : State) (i : Nat) : State :=
  { s with
    ticks := s.ticks + 2 * i
    calls := s.calls ++ ((List.range i).map fun k =>
      List.replicate repeat_.toNat (ApiCall.clEnqueueReadBuffer (s.queue k) (s.buffer k))).flatten
    out := s.out ++ (List.range i).map fun k =>
      read_line s.buffer_size k repeat_ (elapsed env (s.ticks + 2 * k))
    buffer_host :=
      if repeat_.toNat = 0 ∨ i = 0 then s.buffer_host else (s.mem (s.buffer (i - 1))).getD []
    entered := s.entered ++ [.profile_read_operation] }

/-- The calls of one round of the inner loop of `profile_copy_operation`. -/
def copy_calls (s : State) (src i : Nat) : List ApiCall :=
  [.clEnqueueCopyBuffer (s.queue i) (s.buffer src) (s.buffer i), .clWaitForEvents]

/-- State after `j` rounds of the inner loop of `profile_copy_operation` for device `i`. -/
def copy_rounds (src i j : Nat) (s : State) : State :=
  { s with
    err := if j = 0 then s.err else CL_SUCCESS
    calls := s.calls ++ (List.replicate j (copy_calls s src i)).flatten
    mem := if j = 0 then s.mem else Function.update s.mem (s.buffer i) (s.mem (s.buffer src)) }

/-- State after `profile_copy_operation` has served the devices below `i`. -/
def copy_served (env : Env) (repeat_ : Int) (src : Nat) (s : State) (i : Nat) : State :=
  { s with
    err := if repeat_.toNat = 0 ∨ others src i = [] then s.err else CL_SUCCESS
    ticks := s.ticks + 2 * (others src i).length
    calls := s.calls ++ ((others src i).map fun k =>
      (List.replicate repeat_.toNat (copy_calls s src k)).flatten).flatten
    out := s.out ++ (others src i).map fun k =>
      copy_line s.buffer_size src k repeat_ (elapsed env (s.ticks + 2 * (others src k).length))
    mem := fun h =>
      if repeat_.toNat ≠ 0 ∧ h ∈ (others src i).map s.buffer then s.mem (s.buffer src)
      else s.mem h
    entered := s.entered ++ [.profile_copy_operation] }

/-- The calls of one round of the inner loop of `profile_migrate_operation`. -/
def migrate_calls (s : State) (dst i : Nat) : List ApiCall :=
  [.clEnqueueMigrateMemObjects (s.queue dst) (s.buffer i), .clWaitForEvents,
   .clEnqueueMigrateMemObjects (s.queue i) (s.buffer dst), .clWaitForEvents]

/-- The placement of the buffers after one round of the inner loop of
`profile_migrate_operation` for device `i`. -/
def migrate_owner (s : State) (dst i : Nat) (owner : Nat → Nat) : Nat → Nat :=
  Function.update (Function.update owner (s.buffer i) (s.queue dst)) (s.buffer dst) (s.queue i)

/-- State after `j` rounds of the inner loop of `profile_migrate_operation` for device `i`. -/
def migrate_rounds (dst i j : Nat) (s : State) : State :=
  { s with
    calls := s.calls ++ (List.replicate j (migrate_calls s dst i)).flatten
    owner := if j = 0 then s.owner else migrate_owner s dst i s.owner }

/-- State after `profile_migrate_operation` has served the devices below `i`. -/
def migrate_served (env : Env) (repeat_ : Int) (dst : Nat) (s : State) (i : Nat) : State :=
  { s with
    ticks := s.ticks + 2 * (others dst i).length
    calls := s.calls ++ ((others dst i).map fun k =>
      (List.replicate repeat_.toNat (migrate_calls s dst k)).flatten).flatten
    out := s.out ++ (others dst i).map fun k =>
      migrate_line s.buffer_size k dst repeat_
        (elapsed env (s.ticks + 2 * (others dst k).length))
    owner := (others dst i).foldl
      (fun o k => if repeat_.toNat = 0 then o else migrate_owner s dst k o) s.owner
    entered := s.entered ++ [.profile_migrate_operation] }

/-- The platform name `main` asks for. -/
def target : String := "Intel(R) OpenCL Graphics"

/-- The command line has one argument, which reads as a size above 8. -/
def ValidArgs (argv : List String) : Prop :=
  argv.length = 2 ∧ 8 < to_cl_uint (atoi (argv.getD 1 ""))

/-- The state in which `main` calls `initialize_platform`. -/
def State.start (argv : List String) : State :=
  { State.init with
    buffer_size := to_cl_uint (atoi (argv.getD 1 ""))
    out := [.buffer_size (to_cl_int (to_cl_uint (atoi (argv.getD 1 ""))))] }

/-- The platform `main` selects: the last one that carries the target name. -/
def Env.selected (env : Env) : Int :=
  platform_id_after env target (-1) env.platforms.length

/-- What the script keeps true when every call succeeds: setup's guarantees and
a global `err` that holds `CL_SUCCESS`. -/
def Ready (s : State) : Prop := Inv s ∧ s.err = CL_SUCCESS

/-- A routine that never indexes out of range and never faults from a state
that meets setup's guarantees, keeps them, and ends the process only by a
failure exit. -/
def Safe (m : M Unit) : Prop :=
  ∀ s, Inv s → (m s).sat (fun _ s1 => Inv s1) (fun c s1 => c = EXIT_FAILURE ∧ Inv s1)

/-- A routine that, with `n` devices and every call succeeding, returns
normally and prints exactly `k` more throughput lines. -/
def Prints (n k : Nat) (m : M Unit) : Prop :=
  ∀ s, Ready s → s.device_num = n →
    ∃ s1, m s = .ok () s1 ∧ Ready s1 ∧ s1.device_num = n ∧
      throughput_lines s1 = throughput_lines s + k

/-- A host on which enumeration finds no platform.  Like the hosts that follow,
it can allocate an array of up to 2^30 doubles (8 GiB). -/
def env_none : Env where
  platforms := []
  status := fun _ => CL_SUCCESS
  clock := fun k => (k : ℚ)
  dis := fun k => k
  alloc := fun n => decide (n ≤ 1073741824)

/-- A host whose only platform is the target, with a single device. -/
def env_one : Env where
  platforms := [⟨target, ["gpu0"]⟩]
  status := fun _ => CL_SUCCESS
  clock := fun k => (k : ℚ)
  dis := fun k => k
  alloc := fun n => decide (n ≤ 1073741824)

/-- A host whose only platform is the target, with two devices; every call
succeeds and the clock advances by one second per reading. -/
def env_two : Env where
  platforms := [⟨target, ["gpu0", "gpu1"]⟩]
  status := fun _ => CL_SUCCESS
  clock := fun k => (k : ℚ)
  dis := fun k => k
  alloc := fun n => decide (n ≤ 1073741824)

/-- A host on which two platforms carry the target name. -/
def env_twins : Env where
  platforms := [⟨target, ["a0", "a1"]⟩, ⟨target, ["b0", "b1"]⟩]
  status := fun _ => CL_SUCCESS
  clock := fun k => (k : ℚ)
  dis := fun k => k
  alloc := fun n => decide (n ≤ 1073741824)

/-- The host `env_two`, except that the call number `k` of the run returns
`CL_OUT_OF_RESOURCES` (-5). -/
def env_fault (k : Nat) : Env where
  platforms := [⟨target, ["gpu0", "gpu1"]⟩]
  status := fun j => if j = k then -5 else CL_SUCCESS
  clock := fun k => (k : ℚ)
  dis := fun k => k
  alloc := fun n => decide (n ≤ 1073741824)

/-- The contents of the host buffer of `s_two`. -/
def host_two : Content := [0, 1, 2, 3, 4, 5, 6, 7, 8]

/-- The process after setup on `env_two` with `buffer_size` 9: two devices,
their queues and buffers, every device buffer filled from the host buffer. -/
def s_two : State where
  err := CL_SUCCESS
  platform_num := 1
  platform_list := [0]
  platform_id := 0
  device_num := 2
  device_list := [0, 1]
  queue_list := [0, 1]
  buffer_size := 9
  buffer_list := [0, 1]
  buffer_host := host_two
  mem := Function.update (Function.update (fun _ => none) 0 (some host_two)) 1 (some host_two)
  owner := fun k => k
  created := 2
  ticks := 0
  calls := [.clGetPlatformIDs_count, .clGetPlatformIDs_list 1, .clGetPlatformInfo 0,
    .clGetDeviceIDs_count 0, .clGetDeviceIDs_list 0 2, .clGetDeviceInfo 0, .clGetDeviceInfo 1,
    .clCreateContext 2, .clCreateCommandQueue 0, .clCreateCommandQueue 1, .clCreateBuffer 72,
    .clCreateBuffer 72, .clEnqueueWriteBuffer 0 0, .clEnqueueWriteBuffer 1 1]
  out := [.buffer_size 9, separator, .text "  clGetPlatformIDs....... ok", .platform 0 target,
    .selected 0, .text "  clGetDeviceIDs......... ok", .device 0 "gpu0", .device 1 "gpu1",
    .text "  clCreateContext........ ok", .text "  clCreateCommandQueue... ok",
    .text "  clCreateBuffer......... ok", separator]
  errout := []
  entered := [.initialize_platform]

/-- The GB/s figure of a throughput line is its GB figure divided by its seconds
figure, multiplied by its repeat count. -/
def Line.rate_agrees : Line → Prop
  | .throughput _ times gb secs rate => rate = gb / secs * (times : ℚ)
  | .usage _ => True
  | .size_error => True
  | .buffer_size _ => True
  | .text _ => True
  | .platform _ _ => True
  | .selected _ => True
  | .device _ _ => True
  | .crash _ => True
  | .api_error _ _ => True

/-- An outcome satisfies `Q` if it is a normal return; nothing is asked of an
exit, of an access out of range or of a fault. -/
def Outcome.returns {α : Type} (o : Outcome α) (Q : α → State → Prop) : Prop :=
  match o with
  | .ok a s => Q a s
  | .halt _ _ => True
  | .oob _ => True
  | .fault _ _ => True

/-! ## Stepping through a routine -/

section Stepping
variable {α β : Type}

@[simp] theorem pure_apply (a : α) (s : State) : (pure a : M α) s = .ok a s := rfl

theorem bind_apply (m : M α) (f : α → M β) (s : State) :
    (m >>= f) s = match m s with
      | .ok a s1 => f a s1
      | .halt c s1 => .halt c s1
      | .oob s1 => .oob s1
      | .fault e s1 => .fault e s1 := rfl

@[simp] theorem ite_apply_M (c : Prop) [Decidable c] (m1 m2 : M α) (s : State) :
    (if c then m1 else m2) s = if c then m1 s else m2 s := by
  split <;> rfl

@[simp] theorem get_apply (s : State) : get s = .ok s s := rfl

@[simp] theorem modify_apply (f : State → State) (s : State) : modify f s = .ok () (f s) := rfl

@[simp] theorem printf_apply (l : Line) (s : State) :
    printf l s = .ok () { s with out := s.out ++ [l] } := rfl

@[simp] theorem eprintf_apply (l : Line) (s : State) :
    eprintf l s = .ok () { s with errout := s.errout ++ [l] } := rfl

@[simp] theorem c_exit_apply (code : Int) (s : State) :
    (c_exit code : M α) s = .halt code s := rfl

@[simp] theorem enter_apply (r : Routine) (s : State) :
    enter r s = .ok () { s with entered := s.entered ++ [r] } := rfl

@[simp] theorem set_err_apply (e : Int) (s : State) :
    set_err e s = .ok () { s with err := e } := rfl

@[simp] theorem issue_apply (env : Env) (c : ApiCall) (s : State) :
    issue env c s = .ok (env.status s.calls.length) { s with calls := s.calls ++ [c] } := rfl

@[simp] theorem get_time_apply (env : Env) (s : State) :
    get_time env s = .ok (env.clock s.ticks) { s with ticks := s.ticks + 1 } := rfl

@[simp] theorem stop_apply (f : Fault) (s : State) : (stop f : M α) s = .fault f s := rfl

@[simp] theorem new_doubles_apply (env : Env) (n : Nat) (s : State) :
    new_doubles env n s =
      if env.alloc n = true then .ok (List.replicate n 0) s else .fault .bad_alloc s := rfl

theorem index_apply (xs : List Nat) (i : Nat) (s : State) (h : i < xs.length) :
    index xs i s = .ok (xs.getD i 0) s := by
  simp [index, List.getD, List.getElem?_eq_getElem h]

theorem index_oob (xs : List Nat) (i : Nat) (s : State) (h : xs.length ≤ i) :
    index xs i s = .oob s := by
  simp [index, List.getElem?_eq_none h]

theorem loop_from_succ (body : Nat → M Unit) (i n : Nat) (s : State) :
    loop_from body i (n + 1) s = match body i s with
      | .ok _ s1 => loop_from body (i + 1) n s1
      | .halt c s1 => .halt c s1
      | .oob s1 => .oob s1
      | .fault e s1 => .fault e s1 := by
  rw [loop_from, bind_apply]; cases body i s <;> rfl

/-- A loop whose `i`-th round takes `g i` to `g (i + 1)` takes `g 0` to `g n`. -/
theorem loop_from_closed {body : Nat → M Unit} {g : Nat → State} {n : Nat}
    (hbody : ∀ i, i < n → body i (g i) = .ok () (g (i + 1))) :
    ∀ k i, i + k = n → loop_from body i k (g i) = .ok () (g n) := by
  intro k
  induction k with
  | zero => intro i h; simp at h; subst h; rfl
  | succ k ih =>
    intro i h
    rw [loop_from_succ, hbody i (by omega)]
    exact ih (i + 1) (by omega)

theorem for_up_to_closed {body : Nat → M Unit} (g : Nat → State) {n : Nat} {s : State}
    (h0 : g 0 = s) (hbody : ∀ i, i < n → body i (g i) = .ok () (g (i + 1))) :
    for_up_to n body s = .ok () (g n) := by
  rw [← h0]
  exact loop_from_closed hbody n 0 (by omega)

theorem int_loop_from_succ (body : Nat → M Unit) (i n : Nat) (s : State) :
    int_loop_from body i (n + 1) s = match body i s with
      | .ok _ s1 => if i = INT_MAX then .fault .overflow s1 else int_loop_from body (i + 1) n s1
      | .halt c s1 => .halt c s1
      | .oob s1 => .oob s1
      | .fault e s1 => .fault e s1 := by
  rw [int_loop_from, bind_apply]
  cases body i s with
  | ok a s1 =>
    by_cases h : i = INT_MAX
    · simp [h, bind_apply]
    · simp [h, bind_apply]
  | halt c s1 => rfl
  | oob s1 => rfl
  | fault e s1 => rfl

/-- A counter that stays within `int` never overflows: the loop is the plain one. -/
theorem int_loop_from_small (body : Nat → M Unit) :
    ∀ k i s, i + k ≤ INT_MAX → int_loop_from body i k s = loop_from body i k s := by
  intro k
  induction k with
  | zero => intro i s _; rfl
  | succ k ih =>
    intro i s h
    rw [int_loop_from_succ, loop_from_succ]
    cases body i s with
    | ok a s1 =>
      have hi : ¬i = INT_MAX := by omega
      simp only [hi, if_false]
      exact ih (i + 1) s1 (by omega)
    | halt c s1 => rfl
    | oob s1 => rfl
    | fault e s1 => rfl

/-- A loop whose rounds all return runs into the overflow of its counter when
its bound is above `INT_MAX`. -/
theorem int_loop_from_large {body : Nat → M Unit} {g : Nat → State}
    (hbody : ∀ i, body i (g i) = .ok () (g (i + 1))) :
    ∀ k i, i ≤ INT_MAX → INT_MAX < i + k →
      int_loop_from body i k (g i) = .fault .overflow (g (INT_MAX + 1)) := by
  intro k
  induction k with
  | zero => intro i h1 h2; omega
  | succ k ih =>
    intro i h1 h2
    rw [int_loop_from_succ, hbody i]
    by_cases hi : i = INT_MAX
    · simp only [hi, if_true]
    · simp only [hi, if_false]
      exact ih (i + 1) (by omega) (by omega)

/-- The loop that fills the host buffer: it returns when `n` is an `int`, and
overflows its counter otherwise. -/
theorem fill_apply (env : Env) (n : Nat) (s : State) :
    for_int_up_to n
        (fun i => modify fun s => { s with buffer_host := s.buffer_host.set i (env.dis i) }) s =
      if n ≤ INT_MAX then .ok () { s with buffer_host := filled env s.buffer_host n }
      else .fault .overflow { s with buffer_host := filled env s.buffer_host (INT_MAX + 1) } := by
  by_cases h : n ≤ INT_MAX
  · rw [if_pos h, for_int_up_to, int_loop_from_small _ n 0 s (by omega)]
    exact loop_from_closed
      (g := fun i => { s with buffer_host := filled env s.buffer_host i })
      (fun i _ => rfl) n 0 (by omega)
  · rw [if_neg h, for_int_up_to]
    exact int_loop_from_large
      (g := fun i => { s with buffer_host := filled env s.buffer_host i })
      (fun i => rfl) n 0 (by omega) (by omega)

theorem filled_replicate (env : Env) (n : Nat) :
    ∀ i, i ≤ n →
      filled env (List.replicate n 0) i = (List.range i).map env.dis ++ List.replicate (n - i) 0 := by
  intro i
  induction i with
  | zero => intro _; simp [filled]
  | succ i ih =>
    intro h
    obtain ⟨m, hm⟩ : ∃ m, n - i = m + 1 := ⟨n - i - 1, by omega⟩
    have hm2 : n - (i + 1) = m := by omega
    rw [filled, ih (by omega), hm, hm2, List.range_succ, List.map_append, List.replicate_succ,
      List.set_append_right _ _ (by simp)]
    simp

/-- The host buffer once the loop has filled it. -/
theorem filled_all (env : Env) (n : Nat) :
    filled env (List.replicate n 0) n = (List.range n).map env.dis := by
  rw [filled_replicate env n n le_rfl]
  simp

/-! ### Outcomes that satisfy a specification -/

@[simp] theorem sat_ok (a : α) (s : State) (Q : α → State → Prop) (H : Int → State → Prop) :
    (Outcome.ok a s).sat Q H ↔ Q a s := Iff.rfl

@[simp] theorem sat_halt (c : Int) (s : State) (Q : α → State → Prop)
    (H : Int → State → Prop) : (Outcome.halt c s : Outcome α).sat Q H ↔ H c s := Iff.rfl

@[simp] theorem sat_oob (s : State) (Q : α → State → Prop) (H : Int → State → Prop) :
    (Outcome.oob s : Outcome α).sat Q H ↔ False := Iff.rfl

@[simp] theorem sat_fault (f : Fault) (s : State) (Q : α → State → Prop)
    (H : Int → State → Prop) : (Outcome.fault f s : Outcome α).sat Q H ↔ False := Iff.rfl

@[simp] theorem sat_bind (m : M α) (f : α → M β) (s : State) (Q : β → State → Prop)
    (H : Int → State → Prop) :
    ((m >>= f) s).sat Q H ↔ (m s).sat (fun a s1 => (f a s1).sat Q H) H := by
  rw [bind_apply]; cases m s <;> rfl

theorem sat_mono {o : Outcome α} {Q Q2 : α → State → Prop} {H H2 : Int → State → Prop}
    (h : o.sat Q H) (hQ : ∀ a s, Q a s → Q2 a s) (hH : ∀ c s, H c s → H2 c s) :
    o.sat Q2 H2 := by
  cases o with
  | ok a s => exact hQ a s h
  | halt c s => exact hH c s h
  | oob s => exact h
  | fault f s => exact h

@[simp] theorem sat_ite (c : Prop) [Decidable c] (o1 o2 : Outcome α) (Q : α → State → Prop)
    (H : Int → State → Prop) :
    (if c then o1 else o2).sat Q H ↔ (c → o1.sat Q H) ∧ (¬c → o2.sat Q H) := by
  split <;> simp [*]

@[simp] theorem sat_index (xs : List Nat) (i : Nat) (s : State) (Q : Nat → State → Prop)
    (H : Int → State → Prop) :
    (index xs i s).sat Q H ↔ i < xs.length ∧ Q (xs.getD i 0) s := by
  by_cases h : i < xs.length
  · simp [index_apply xs i s h, h]
  · simp [index_oob xs i s (by omega), h]

/-- The rule of the loop: an assertion indexed by the round. -/
theorem sat_loop_from {body : Nat → M Unit} {I : Nat → State → Prop}
    {H : Int → State → Prop} {n : Nat}
    (hbody : ∀ i s, i < n → I i s → (body i s).sat (fun _ s1 => I (i + 1) s1) H) :
    ∀ k i s, i + k = n → I i s → (loop_from body i k s).sat (fun _ s1 => I n s1) H := by
  intro k
  induction k with
  | zero => intro i s h hI; simp at h; subst h; exact hI
  | succ k ih =>
    intro i s h hI
    rw [loop_from_succ]
    have hb := hbody i s (by omega) hI
    cases hbi : body i s with
    | ok a s1 => rw [hbi] at hb; exact ih (i + 1) s1 (by omega) hb
    | halt c s1 => rw [hbi] at hb; exact hb
    | oob s1 => rw [hbi] at hb; exact hb
    | fault f s1 => rw [hbi] at hb; exact hb

theorem sat_for_up_to {body : Nat → M Unit} (I : Nat → State → Prop)
    {Q : Unit → State → Prop} {H : Int → State → Prop} {n : Nat} {s : State}
    (h0 : I 0 s)
    (hbody : ∀ i s, i < n → I i s → (body i s).sat (fun _ s1 => I (i + 1) s1) H)
    (hQ : ∀ s1, I n s1 → Q () s1) :
    (for_up_to n body s).sat Q H :=
  sat_mono (sat_loop_from hbody n 0 s (by omega) h0) (fun _ s1 h => hQ s1 h) (fun _ _ h => h)

end Stepping

/-! ### Outcomes that return -/

section Returns
variable {α β : Type}

@[simp] theorem returns_ok (a : α) (s : State) (Q : α → State → Prop) :
    (Outcome.ok a s).returns Q ↔ Q a s := Iff.rfl

@[simp] theorem returns_halt (c : Int) (s : State) (Q : α → State → Prop) :
    (Outcome.halt c s : Outcome α).returns Q ↔ True := Iff.rfl

@[simp] theorem returns_oob (s : State) (Q : α → State → Prop) :
    (Outcome.oob s : Outcome α).returns Q ↔ True := Iff.rfl

@[simp] theorem returns_fault (f : Fault) (s : State) (Q : α → State → Prop) :
    (Outcome.fault f s : Outcome α).returns Q ↔ True := Iff.rfl

@[simp] theorem returns_bind (m : M α) (f : α → M β) (s : State) (Q : β → State → Prop) :
    ((m >>= f) s).returns Q ↔ (m s).returns fun a s1 => (f a s1).returns Q := by
  rw [bind_apply]; cases m s <;> rfl

theorem returns_mono {o : Outcome α} {Q Q2 : α → State → Prop} (h : o.returns Q)
    (hQ : ∀ a s, Q a s → Q2 a s) : o.returns Q2 := by
  cases o with
  | ok a s => exact hQ a s h
  | halt c s => trivial
  | oob s => trivial
  | fault f s => trivial

theorem returns_any (o : Outcome α) : o.returns fun _ _ => True := by
  cases o <;> trivial

@[simp] theorem returns_ite (c : Prop) [Decidable c] (o1 o2 : Outcome α)
    (Q : α → State → Prop) :
    (if c then o1 else o2).returns Q ↔ (c → o1.returns Q) ∧ (¬c → o2.returns Q) := by
  split <;> simp [*]

@[simp] theorem returns_index (xs : List Nat) (i : Nat) (s : State) (Q : Nat → State → Prop) :
    (index xs i s).returns Q ↔ (i < xs.length → Q (xs.getD i 0) s) := by
  by_cases h : i < xs.length
  · simp [index_apply xs i s h, h]
  · simp [index_oob xs i s (by omega), h]

theorem returns_loop_from {body : Nat → M Unit} {I : State → Prop}
    (hbody : ∀ i s, I s → (body i s).returns fun _ s1 => I s1) :
    ∀ k i s, I s → (loop_from body i k s).returns fun _ s1 => I s1 := by
  intro k
  induction k with
  | zero => intro i s hI; exact hI
  | succ k ih =>
    intro i s hI
    rw [loop_from_succ]
    have hb := hbody i s hI
    cases hbi : body i s with
    | ok a s1 => rw [hbi] at hb; exact ih (i + 1) s1 hb
    | halt c s1 => trivial
    | oob s1 => trivial
    | fault f s1 => trivial

theorem returns_for_up_to {body : Nat → M Unit} (I : State → Prop)
    {Q : Unit → State → Prop} {n : Nat} {s : State} (h0 : I s)
    (hbody : ∀ i s, I s → (body i s).returns fun _ s1 => I s1)
    (hQ : ∀ s1, I s1 → Q () s1) : (for_up_to n body s).returns Q :=
  returns_mono (returns_loop_from hbody n 0 s h0) fun _ s1 h => hQ s1 h

/-- What holds of every normal return may be added to a specification. -/
theorem sat_and_returns {o : Outcome α} {Q R : α → State → Prop} {H : Int → State → Prop}
    (h : o.sat Q H) (hr : o.returns R) : o.sat (fun a s => Q a s ∧ R a s) H := by
  cases o with
  | ok a s => exact ⟨h, hr⟩
  | halt c s => exact h
  | oob s => exact h
  | fault f s => exact h

end Returns

/-! ### Outcomes that may be a fault -/

section Ends
variable {α β : Type}

@[simp] theorem ends_ok (a : α) (s : State) (Q : α → State → Prop) (H : Int → State → Prop)
    (F : Fault → State → Prop) : (Outcome.ok a s).ends Q H F ↔ Q a s := Iff.rfl

@[simp] theorem ends_halt (c : Int) (s : State) (Q : α → State → Prop)
    (H : Int → State → Prop) (F : Fault → State → Prop) :
    (Outcome.halt c s : Outcome α).ends Q H F ↔ H c s := Iff.rfl

@[simp] theorem ends_oob (s : State) (Q : α → State → Prop) (H : Int → State → Prop)
    (F : Fault → State → Prop) : (Outcome.oob s : Outcome α).ends Q H F ↔ False := Iff.rfl

@[simp] theorem ends_fault (f : Fault) (s : State) (Q : α → State → Prop)
    (H : Int → State → Prop) (F : Fault → State → Prop) :
    (Outcome.fault f s : Outcome α).ends Q H F ↔ F f s := Iff.rfl

@[simp] theorem ends_bind (m : M α) (f : α → M β) (s : State) (Q : β → State → Prop)
    (H : Int → State → Prop) (F : Fault → State → Prop) :
    ((m >>= f) s).ends Q H F ↔ (m s).ends (fun a s1 => (f a s1).ends Q H F) H F := by
  rw [bind_apply]; cases m s <;> rfl

theorem ends_mono {o : Outcome α} {Q Q2 : α → State → Prop} {H H2 : Int → State → Prop}
    {F F2 : Fault → State → Prop} (h : o.ends Q H F) (hQ : ∀ a s, Q a s → Q2 a s)
    (hH : ∀ c s, H c s → H2 c s) (hF : ∀ f s, F f s → F2 f s) : o.ends Q2 H2 F2 := by
  cases o with
  | ok a s => exact hQ a s h
  | halt c s => exact hH c s h
  | oob s => exact h
  | fault f s => exact hF f s h

/-- A specification that excludes faults, weakened to one that allows them. -/
theorem ends_of_sat {o : Outcome α} {Q Q2 : α → State → Prop} {H H2 : Int → State → Prop}
    {F : Fault → State → Prop} (h : o.sat Q H) (hQ : ∀ a s, Q a s → Q2 a s)
    (hH : ∀ c s, H c s → H2 c s) : o.ends Q2 H2 F := by
  cases o with
  | ok a s => exact hQ a s h
  | halt c s => exact hH c s h
  | oob s => exact h
  | fault f s => exact h.elim

@[simp] theorem ends_ite (c : Prop) [Decidable c] (o1 o2 : Outcome α) (Q : α → State → Prop)
    (H : Int → State → Prop) (F : Fault → State → Prop) :
    (if c then o1 else o2).ends Q H F ↔ (c → o1.ends Q H F) ∧ (¬c → o2.ends Q H F) := by
  split <;> simp [*]

/-- The rule of the loop for a body that never faults. -/
theorem ends_for_up_to {body : Nat → M Unit} (I : Nat → State → Prop)
    {Q : Unit → State → Prop} {H : Int → State → Prop} {F : Fault → State → Prop} {n : Nat}
    {s : State} (h0 : I 0 s)
    (hbody : ∀ i s, i < n → I i s → (body i s).sat (fun _ s1 => I (i + 1) s1) H)
    (hQ : ∀ s1, I n s1 → Q () s1) : (for_up_to n body s).ends Q H F :=
  ends_of_sat (sat_loop_from hbody n 0 s (by omega) h0) (fun _ s1 h => hQ s1 h) (fun _ _ h => h)

end Ends

/-! ## The timed routines when every call succeeds -/

section Success
variable {env : Env}

theorem others_succ (d i : Nat) :
    others d (i + 1) = if i = d then others d i else others d i ++ [i] := by
  unfold others
  rw [List.range_succ, List.filter_append]
  by_cases h : i = d <;> simp [h]

theorem write_round_ok (hs : AllSucceed env) {s : State} {i : Nat} (hwf : WF s)
    (hi : i < s.device_num) :
    write_round env i s = .ok () { s with
      calls := s.calls ++ [.clEnqueueWriteBuffer (s.queue i) (s.buffer i)]
      mem := Function.update s.mem (s.buffer i) (some s.buffer_host) } := by
  have hq : i < s.queue_list.length := by rw [hwf.1]; exact hi
  have hb : i < s.buffer_list.length := by rw [hwf.2]; exact hi
  simp [write_round, bind_apply, index_apply _ _ _ hq, index_apply _ _ _ hb,
    clEnqueueWriteBuffer, hs _, check_error_code, State.queue, State.buffer]

theorem write_rounds_ok (hs : AllSucceed env) {s : State} {i : Nat} (hwf : WF s)
    (hi : i < s.device_num) (j : Nat) :
    for_up_to j (fun _ => write_round env i) s = .ok () (write_rounds i j s) := by
  refine for_up_to_closed (fun j => write_rounds i j s) (by simp [write_rounds]) ?_
  intro k _
  rw [write_round_ok hs (by exact hwf) (by exact hi)]
  simp [write_rounds, State.queue, State.buffer, List.replicate_succ']
  split <;> simp

theorem take_succ_mem {l : List Nat} {i : Nat} (hi : i < l.length) (h : Nat) :
    h ∈ l.take (i + 1) ↔ h ∈ l.take i ∨ h = l.getD i 0 := by
  have : l.getD i 0 = l[i] := by simp [List.getD, List.getElem?_eq_getElem hi]
  rw [this, List.take_succ, List.getElem?_eq_getElem hi, List.mem_append]
  simp only [Option.toList, List.mem_singleton]

theorem profile_write_operation_ok (hs : AllSucceed env) {s : State} (hwf : WF s) (r : Int) :
    profile_write_operation env r s = .ok () (write_served env r s s.device_num) := by
  simp only [profile_write_operation, bind_apply, enter_apply, get_apply]
  rw [for_up_to_closed (write_served env r s) (by simp [write_served])]
  intro i hi
  have hwf2 : WF { write_served env r s i with ticks := s.ticks + 2 * i + 1 } := hwf
  have hb : i < s.buffer_list.length := by rw [hwf.2]; exact hi
  simp only [bind_apply, get_time_apply, get_apply]
  have := write_rounds_ok hs hwf2 hi r.toNat
  simp only [write_served] at this ⊢
  rw [this]
  simp [write_rounds, State.queue, State.buffer, List.range_succ, elapsed]
  refine ⟨?_, by ring⟩
  funext h
  have := take_succ_mem hb h
  by_cases hr : r ≤ 0
  · simp [hr, not_lt.mpr hr]
  · simp only [hr, if_false, Function.update_apply, this, List.getD]
    by_cases hh : h = s.buffer_list[i]?.getD 0 <;> simp [hh, not_le.mp hr]

theorem read_round_ok (hs : AllSucceed env) {s : State} {i : Nat} (hwf : WF s)
    (hi : i < s.device_num) :
    read_round env i s = .ok () { s with
      calls := s.calls ++ [.clEnqueueReadBuffer (s.queue i) (s.buffer i)]
      buffer_host := (s.mem (s.buffer i)).getD [] } := by
  have hq : i < s.queue_list.length := by rw [hwf.1]; exact hi
  have hb : i < s.buffer_list.length := by rw [hwf.2]; exact hi
  simp [read_round, bind_apply, index_apply _ _ _ hq, index_apply _ _ _ hb,
    clEnqueueReadBuffer, hs _, check_error_code, State.queue, State.buffer]

theorem read_rounds_ok (hs : AllSucceed env) {s : State} {i : Nat} (hwf : WF s)
    (hi : i < s.device_num) (j : Nat) :
    for_up_to j (fun _ => read_round env i) s = .ok () (read_rounds i j s) := by
  refine for_up_to_closed (fun j => read_rounds i j s) (by simp [read_rounds]) ?_
  intro k _
  rw [read_round_ok hs (by exact hwf) (by exact hi)]
  simp [read_rounds, State.queue, State.buffer, List.replicate_succ']

theorem profile_read_operation_ok (hs : AllSucceed env) {s : State} (hwf : WF s) (r : Int) :
    profile_read_operation env r s = .ok () (read_served env r s s.device_num) := by
  simp only [profile_read_operation, bind_apply, enter_apply, get_apply]
  rw [for_up_to_closed (read_served env r s) (by simp [read_served])]
  intro i hi
  have hwf2 : WF { read_served env r s i with ticks := s.ticks + 2 * i + 1 } := hwf
  simp only [bind_apply, get_time_apply, get_apply]
  have := read_rounds_ok hs hwf2 hi r.toNat
  simp only [read_served] at this ⊢
  rw [this]
  simp [read_rounds, State.queue, State.buffer, List.range_succ, elapsed]
  refine ⟨?_, by ring⟩
  by_cases hr : r ≤ 0 <;> simp [hr]

theorem copy_round_ok (hs : AllSucceed env) {s : State} {src i : Nat} (hwf : WF s)
    (hsrc : src < s.device_num) (hi : i < s.device_num) :
    copy_round env src i s = .ok () { s with
      err := CL_SUCCESS
      calls := s.calls ++ copy_calls s src i
      mem := Function.update s.mem (s.buffer i) (s.mem (s.buffer src)) } := by
  have hq : i < s.queue_list.length := by rw [hwf.1]; exact hi
  have hb : i < s.buffer_list.length := by rw [hwf.2]; exact hi
  have hb2 : src < s.buffer_list.length := by rw [hwf.2]; exact hsrc
  simp [copy_round, bind_apply, index_apply _ _ _ hq, index_apply _ _ _ hb,
    index_apply _ _ _ hb2, clEnqueueCopyBuffer, clWaitForEvents, hs _, CHECK_ERROR,
    check_error_code, State.queue, State.buffer, copy_calls]

theorem copy_rounds_ok (hs : AllSucceed env) {s : State} {src i : Nat} (hwf : WF s)
    (hsrc : src < s.device_num) (hi : i < s.device_num) (j : Nat) :
    for_up_to j (fun _ => copy_round env src i) s = .ok () (copy_rounds src i j s) := by
  refine for_up_to_closed (fun j => copy_rounds src i j s) (by simp [copy_rounds]) ?_
  intro k _
  rw [copy_round_ok hs (by exact hwf) (by exact hsrc) (by exact hi)]
  simp [copy_rounds, State.queue, State.buffer, List.replicate_succ', copy_calls]
  split
  · simp
  · funext h
    simp only [Function.update_apply]
    by_cases h1 : h = s.buffer_list[i]?.getD 0 <;>
      by_cases h2 : s.buffer_list[src]?.getD 0 = s.buffer_list[i]?.getD 0 <;> simp [h1, h2]

theorem profile_copy_operation_ok (hs : AllSucceed env) {s : State} (hwf : WF s) (r : Int)
    {src : Nat} (hsrc : src < s.device_num) :
    profile_copy_operation env r src s = .ok () (copy_served env r src s s.device_num) := by
  simp only [profile_copy_operation, bind_apply, enter_apply, get_apply]
  rw [for_up_to_closed (copy_served env r src s) (by simp [copy_served, others])]
  intro i hi
  by_cases hisrc : i = src
  · simp [hisrc, copy_served, others_succ]
  · have hwf2 : WF { copy_served env r src s i with
        ticks := s.ticks + 2 * (others src i).length + 1 } := hwf
    simp only [bind_apply, get_time_apply, get_apply, ite_apply_M, hisrc, ne_eq,
      not_false_eq_true, if_true]
    have := copy_rounds_ok hs hwf2 hsrc hi r.toNat
    simp only [copy_served] at this ⊢
    rw [this]
    simp [copy_rounds, State.queue, State.buffer, others_succ, hisrc, elapsed, copy_calls]
    refine ⟨?_, ?_, by ring⟩
    · by_cases hr : r ≤ 0 <;> simp [hr]
    · funext h
      by_cases hr : r ≤ 0
      · simp [hr, not_lt.mpr hr]
      · simp only [hr, if_false, Function.update_apply, not_le.mp hr, true_and]
        by_cases hh : h = s.buffer_list[i]?.getD 0 <;> simp [hh]

theorem migrate_round_ok (hs : AllSucceed env) {s : State} {dst i : Nat} (hwf : WF s)
    (herr : s.err = CL_SUCCESS) (hdst : dst < s.device_num) (hi : i < s.device_num) :
    migrate_round env dst i s = .ok () { s with
      calls := s.calls ++ migrate_calls s dst i
      owner := migrate_owner s dst i s.owner } := by
  have hq : i < s.queue_list.length := by rw [hwf.1]; exact hi
  have hb : i < s.buffer_list.length := by rw [hwf.2]; exact hi
  have hq2 : dst < s.queue_list.length := by rw [hwf.1]; exact hdst
  have hb2 : dst < s.buffer_list.length := by rw [hwf.2]; exact hdst
  simp [migrate_round, bind_apply, index_apply _ _ _ hq, index_apply _ _ _ hb,
    index_apply _ _ _ hb2, index_apply _ _ _ hq2, clEnqueueMigrateMemObjects, clWaitForEvents,
    hs _, CHECK_ERROR, check_error_code, State.queue, State.buffer, migrate_calls,
    migrate_owner, herr]

theorem migrate_owner_twice (s : State) (dst i : Nat) (o : Nat → Nat) :
    Function.update (Function.update (migrate_owner s dst i o) (s.buffer i) (s.queue dst))
      (s.buffer dst) (s.queue i) = migrate_owner s dst i o := by
  funext h
  simp only [migrate_owner, Function.update_apply]
  by_cases h1 : h = s.buffer dst <;> by_cases h2 : h = s.buffer i <;> simp [h1, h2]

theorem migrate_rounds_ok (hs : AllSucceed env) {s : State} {dst i : Nat} (hwf : WF s)
    (herr : s.err = CL_SUCCESS) (hdst : dst < s.device_num) (hi : i < s.device_num)
    (j : Nat) :
    for_up_to j (fun _ => migrate_round env dst i) s = .ok () (migrate_rounds dst i j s) := by
  refine for_up_to_closed (fun j => migrate_rounds dst i j s) (by simp [migrate_rounds]) ?_
  intro k _
  rw [migrate_round_ok hs (by exact hwf) (by exact herr) (by exact hdst) (by exact hi)]
  simp only [migrate_rounds, migrate_calls, migrate_owner, State.queue, State.buffer,
    List.replicate_succ', List.flatten_append, List.flatten_cons, List.flatten_nil,
    List.append_nil, List.append_assoc, Outcome.ok.injEq, true_and, State.mk.injEq,
    and_true, Nat.add_one_ne_zero, if_false]
  split
  · rfl
  · exact migrate_owner_twice s dst i s.owner

theorem profile_migrate_operation_ok (hs : AllSucceed env) {s : State} (hwf : WF s)
    (herr : s.err = CL_SUCCESS) (r : Int) {dst : Nat} (hdst : dst < s.device_num) :
    profile_migrate_operation env r dst s =
      .ok () (migrate_served env r dst s s.device_num) := by
  simp only [profile_migrate_operation, bind_apply, enter_apply, get_apply]
  rw [for_up_to_closed (migrate_served env r dst s) (by simp [migrate_served, others])]
  intro i hi
  by_cases hidst : i = dst
  · simp [hidst, migrate_served, others_succ]
  · have hwf2 : WF { migrate_served env r dst s i with
        ticks := s.ticks + 2 * (others dst i).length + 1 } := hwf
    simp only [bind_apply, get_time_apply, get_apply, ite_apply_M, hidst, ne_eq,
      not_false_eq_true, if_true]
    have := migrate_rounds_ok hs hwf2 herr hdst hi r.toNat
    simp only [migrate_served] at this ⊢
    rw [this]
    simp [migrate_rounds, State.queue, State.buffer, others_succ, hidst, elapsed,
      migrate_calls, migrate_owner]
    ring

end Success

/-! ## The timed routines whatever the vendor answers -/

section Safety
variable (env : Env)

theorem write_round_safe {s s0 : State} {i : Nat} (hwf : WF s0) (h : Same s0 s)
    (hi : i < s0.device_num) :
    (write_round env i s).sat (fun _ s1 => Same s0 s1)
      (fun c s1 => c = EXIT_FAILURE ∧ Same s0 s1) := by
  obtain ⟨hq, hb⟩ := hwf
  obtain ⟨h1, h2, h3⟩ := h
  simp [write_round, clEnqueueWriteBuffer, check_error_code, Same, h1, h2, h3, hq, hb, hi]

theorem read_round_safe {s s0 : State} {i : Nat} (hwf : WF s0) (h : Same s0 s)
    (hi : i < s0.device_num) :
    (read_round env i s).sat (fun _ s1 => Same s0 s1)
      (fun c s1 => c = EXIT_FAILURE ∧ Same s0 s1) := by
  obtain ⟨hq, hb⟩ := hwf
  obtain ⟨h1, h2, h3⟩ := h
  simp [read_round, clEnqueueReadBuffer, check_error_code, Same, h1, h2, h3, hq, hb, hi]

theorem copy_round_safe {s s0 : State} {src i : Nat} (hwf : WF s0) (h : Same s0 s)
    (hsrc : src < s0.device_num) (hi : i < s0.device_num) :
    (copy_round env src i s).sat (fun _ s1 => Same s0 s1)
      (fun c s1 => c = EXIT_FAILURE ∧ Same s0 s1) := by
  obtain ⟨hq, hb⟩ := hwf
  obtain ⟨h1, h2, h3⟩ := h
  simp [copy_round, clEnqueueCopyBuffer, clWaitForEvents, CHECK_ERROR, check_error_code, Same,
    h1, h2, h3, hq, hb, hi, hsrc]

theorem migrate_round_safe {s s0 : State} {dst i : Nat} (hwf : WF s0) (h : Same s0 s)
    (hdst : dst < s0.device_num) (hi : i < s0.device_num) :
    (migrate_round env dst i s).sat (fun _ s1 => Same s0 s1)
      (fun c s1 => c = EXIT_FAILURE ∧ Same s0 s1) := by
  obtain ⟨hq, hb⟩ := hwf
  obtain ⟨h1, h2, h3⟩ := h
  simp [migrate_round, clEnqueueMigrateMemObjects, clWaitForEvents, CHECK_ERROR,
    check_error_code, Same, h1, h2, h3, hq, hb, hi, hdst]

theorem profile_write_operation_safe (r : Int) {s : State} (hwf : WF s) :
    (profile_write_operation env r s).sat (fun _ s1 => Same s s1)
      (fun c s1 => c = EXIT_FAILURE ∧ Same s s1) := by
  simp only [profile_write_operation, sat_bind, enter_apply, sat_ok, get_apply]
  refine sat_for_up_to (fun _ s1 => Same s s1) ⟨rfl, rfl, rfl⟩ ?_ (fun _ h => h)
  intro i s1 hi h1
  simp only [sat_bind, get_time_apply, sat_ok, get_apply, printf_apply]
  refine sat_for_up_to (fun _ s2 => Same s s2) h1 ?_ (fun _ h => h)
  intro j s2 _ h2
  exact write_round_safe env hwf h2 hi

theorem profile_read_operation_safe (r : Int) {s : State} (hwf : WF s) :
    (profile_read_operation env r s).sat (fun _ s1 => Same s s1)
      (fun c s1 => c = EXIT_FAILURE ∧ Same s s1) := by
  simp only [profile_read_operation, sat_bind, enter_apply, sat_ok, get_apply]
  refine sat_for_up_to (fun _ s1 => Same s s1) ⟨rfl, rfl, rfl⟩ ?_ (fun _ h => h)
  intro i s1 hi h1
  simp only [sat_bind, get_time_apply, sat_ok, get_apply, printf_apply]
  refine sat_for_up_to (fun _ s2 => Same s s2) h1 ?_ (fun _ h => h)
  intro j s2 _ h2
  exact read_round_safe env hwf h2 hi

theorem profile_copy_operation_safe (r : Int) {src : Nat} {s : State} (hwf : WF s)
    (hsrc : src < s.device_num) :
    (profile_copy_operation env r src s).sat (fun _ s1 => Same s s1)
      (fun c s1 => c = EXIT_FAILURE ∧ Same s s1) := by
  simp only [profile_copy_operation, sat_bind, enter_apply, sat_ok, get_apply]
  refine sat_for_up_to (fun _ s1 => Same s s1) ⟨rfl, rfl, rfl⟩ ?_ (fun _ h => h)
  intro i s1 hi h1
  simp only [ite_apply_M, sat_ite, pure_apply, sat_ok, sat_bind, get_time_apply, get_apply,
    printf_apply]
  refine ⟨fun _ => ?_, fun _ => h1⟩
  refine sat_for_up_to (fun _ s2 => Same s s2) h1 ?_ (fun _ h => h)
  intro j s2 _ h2
  exact copy_round_safe env hwf h2 hsrc hi

theorem profile_migrate_operation_safe (r : Int) {dst : Nat} {s : State} (hwf : WF s)
    (hdst : dst < s.device_num) :
    (profile_migrate_operation env r dst s).sat (fun _ s1 => Same s s1)
      (fun c s1 => c = EXIT_FAILURE ∧ Same s s1) := by
  simp only [profile_migrate_operation, sat_bind, enter_apply, sat_ok, get_apply]
  refine sat_for_up_to (fun _ s1 => Same s s1) ⟨rfl, rfl, rfl⟩ ?_ (fun _ h => h)
  intro i s1 hi h1
  simp only [ite_apply_M, sat_ite, pure_apply, sat_ok, sat_bind, get_time_apply, get_apply,
    printf_apply]
  refine ⟨fun _ => ?_, fun _ => h1⟩
  refine sat_for_up_to (fun _ s2 => Same s s2) h1 ?_ (fun _ h => h)
  intro j s2 _ h2
  exact migrate_round_safe env hwf h2 hdst hi

end Safety

/-! ## Setup -/

section Setup
variable (env : Env)

@[simp] theorem is_discovery_values :
    ApiCall.clGetPlatformIDs_count.is_discovery = true ∧
    (∀ n, (ApiCall.clGetPlatformIDs_list n).is_discovery = true) ∧
    (∀ p, (ApiCall.clGetPlatformInfo p).is_discovery = true) ∧
    (∀ p, (ApiCall.clGetDeviceIDs_count p).is_discovery = true) ∧
    (∀ p n, (ApiCall.clGetDeviceIDs_list p n).is_discovery = true) ∧
    (∀ d, (ApiCall.clGetDeviceInfo d).is_discovery = true) :=
  ⟨rfl, fun _ => rfl, fun _ => rfl, fun _ => rfl, fun _ _ => rfl, fun _ => rfl⟩

@[simp] theorem is_throughput_values :
    (∀ t, (Line.text t).is_throughput = false) ∧
    (∀ i n, (Line.platform i n).is_throughput = false) ∧
    (∀ i, (Line.selected i).is_throughput = false) ∧
    (∀ i n, (Line.device i n).is_throughput = false) ∧
    (∀ v, (Line.buffer_size v).is_throughput = false) ∧
    (∀ p, (Line.usage p).is_throughput = false) ∧
    Line.size_error.is_throughput = false ∧
    (∀ t r g x y, (Line.throughput t r g x y).is_throughput = true) :=
  ⟨fun _ => rfl, fun _ _ => rfl, fun _ => rfl, fun _ _ => rfl, fun _ => rfl, fun _ => rfl, rfl,
    fun _ _ _ _ _ => rfl⟩

theorem not_allSucceed {k : Nat} (h : ¬env.status k = CL_SUCCESS) : ¬AllSucceed env :=
  fun hs => h (hs k)

theorem check_error_code_apply (e : Int) (op : String) (s : State) :
    check_error_code e op s =
      if e = CL_SUCCESS then .ok () s
      else .halt EXIT_FAILURE { s with errout := s.errout ++ [.api_error op e] } := by
  by_cases h : e = CL_SUCCESS <;> simp [check_error_code, h, bind_apply]

theorem CHECK_ERROR_apply (op : String) (s : State) :
    CHECK_ERROR op s =
      if s.err = CL_SUCCESS then .ok () s
      else .halt EXIT_FAILURE { s with errout := s.errout ++ [.api_error op s.err] } := by
  simp [CHECK_ERROR, bind_apply, check_error_code_apply]

theorem crash_apply {α : Type} (msg : String) (s : State) :
    (crash msg : M α) s = .halt EXIT_FAILURE { s with errout := s.errout ++ [.crash msg] } := by
  simp [crash, bind_apply]

theorem clGetPlatformIDs_count_apply (s : State) :
    clGetPlatformIDs_count env s = .ok (env.status s.calls.length)
      { s with
        calls := s.calls ++ [.clGetPlatformIDs_count]
        platform_num :=
          if env.status s.calls.length = CL_SUCCESS then env.platforms.length
          else s.platform_num } := by
  by_cases h : env.status s.calls.length = CL_SUCCESS <;>
    simp [clGetPlatformIDs_count, bind_apply, h]

theorem clGetPlatformIDs_list_apply (num : Nat) (s : State) :
    clGetPlatformIDs_list env num s = .ok (env.status s.calls.length)
      { s with
        calls := s.calls ++ [.clGetPlatformIDs_list num]
        platform_list :=
          if env.status s.calls.length = CL_SUCCESS then List.range num
          else s.platform_list } := by
  by_cases h : env.status s.calls.length = CL_SUCCESS <;>
    simp [clGetPlatformIDs_list, bind_apply, h]

theorem clGetPlatformInfo_apply (p : Nat) (s : State) :
    clGetPlatformInfo env p s = .ok (env.status s.calls.length, env.platform_name p)
      { s with calls := s.calls ++ [.clGetPlatformInfo p] } := by
  simp [clGetPlatformInfo, bind_apply, Env.platform_name]

theorem clGetDeviceIDs_count_apply (p : Nat) (s : State) :
    clGetDeviceIDs_count env p s = .ok (env.status s.calls.length)
      { s with
        calls := s.calls ++ [.clGetDeviceIDs_count p]
        device_num :=
          if env.status s.calls.length = CL_SUCCESS then env.device_count p
          else s.device_num } := by
  by_cases h : env.status s.calls.length = CL_SUCCESS <;>
    simp [clGetDeviceIDs_count, bind_apply, h, Env.device_count]

theorem clGetDeviceIDs_list_apply (p num : Nat) (s : State) :
    clGetDeviceIDs_list env p num s = .ok (env.status s.calls.length)
      { s with
        calls := s.calls ++ [.clGetDeviceIDs_list p num]
        device_list :=
          if env.status s.calls.length = CL_SUCCESS then List.range num
          else s.device_list } := by
  by_cases h : env.status s.calls.length = CL_SUCCESS <;>
    simp [clGetDeviceIDs_list, bind_apply, h]

theorem clGetDeviceInfo_apply (d : Nat) (s : State) :
    clGetDeviceInfo env d s =
      .ok (env.status s.calls.length, env.device_name s.platform_id.toNat d)
        { s with calls := s.calls ++ [.clGetDeviceInfo d] } := by
  simp [clGetDeviceInfo, bind_apply, Env.device_name]

theorem clCreateCommandQueue_apply (d : Nat) (s : State) :
    clCreateCommandQueue env d s =
      .ok (env.status s.calls.length, if env.status s.calls.length = CL_SUCCESS then d else 0)
        { s with calls := s.calls ++ [.clCreateCommandQueue d] } := by
  simp [clCreateCommandQueue, bind_apply]

theorem clCreateBuffer_apply (bytes : Nat) (s : State) :
    clCreateBuffer env bytes s =
      .ok (env.status s.calls.length,
          if env.status s.calls.length = CL_SUCCESS then s.created else 0)
        { s with
          calls := s.calls ++ [.clCreateBuffer bytes]
          created :=
            if env.status s.calls.length = CL_SUCCESS then s.created + 1 else s.created } := by
  by_cases h : env.status s.calls.length = CL_SUCCESS <;>
    simp [clCreateBuffer, bind_apply, h]

theorem clEnqueueWriteBuffer_apply (q b : Nat) (host : Content) (s : State) :
    clEnqueueWriteBuffer env q b host s = .ok (env.status s.calls.length)
      { s with
        calls := s.calls ++ [.clEnqueueWriteBuffer q b]
        mem :=
          if env.status s.calls.length = CL_SUCCESS then Function.update s.mem b (some host)
          else s.mem } := by
  by_cases h : env.status s.calls.length = CL_SUCCESS <;>
    simp [clEnqueueWriteBuffer, bind_apply, h]

theorem get_platforms_spec {s : State} (h : Discovering s) :
    (get_platforms env s).sat
      (fun _ s1 => Discovering s1 ∧ s1.platform_list = List.range env.platforms.length ∧
        s1.platform_num = env.platforms.length ∧ s1.platform_id = s.platform_id ∧
        s1.errout = s.errout ∧ s1.device_num = s.device_num)
      (fun c s1 => c = EXIT_FAILURE ∧ Discovering s1 ∧ s1.device_num = s.device_num ∧
        s1.platform_id = s.platform_id ∧ ¬AllSucceed env) := by
  obtain ⟨h1, h2, h3⟩ := h
  simp only [Discovering, Quiet]
  by_cases hA : env.status s.calls.length = CL_SUCCESS
  · by_cases hB : env.status (s.calls.length + 1) = CL_SUCCESS
    · simp [get_platforms, clGetPlatformIDs_count_apply, clGetPlatformIDs_list_apply,
        CHECK_ERROR_apply, or_imp, forall_and, hA, hB]
      exact ⟨h1, h2, h3⟩
    · simp [get_platforms, clGetPlatformIDs_count_apply, clGetPlatformIDs_list_apply,
        CHECK_ERROR_apply, or_imp, forall_and, hA, hB]
      exact ⟨⟨h1, h2, h3⟩, not_allSucceed env hB⟩
  · simp [get_platforms, clGetPlatformIDs_count_apply, clGetPlatformIDs_list_apply,
      CHECK_ERROR_apply, or_imp, forall_and, hA]
    exact ⟨⟨h1, h2, h3⟩, not_allSucceed env hA⟩

theorem platform_search_spec (target : String) {s : State} (h : Discovering s)
    (hl : s.platform_list = List.range env.platforms.length) {n : Nat}
    (hn : n ≤ env.platforms.length) :
    (platform_search env target n s).sat
      (fun _ s1 => Discovering s1 ∧ s1.platform_list = List.range env.platforms.length ∧
        s1.platform_id = platform_id_after env target s.platform_id n ∧
        s1.errout = s.errout ∧ s1.device_num = s.device_num)
      (fun c s1 => c = EXIT_FAILURE ∧ Discovering s1 ∧ s1.device_num = s.device_num ∧
        ¬AllSucceed env) := by
  refine sat_for_up_to
    (fun i s1 => Discovering s1 ∧ s1.platform_list = List.range env.platforms.length ∧
        s1.platform_id = platform_id_after env target s.platform_id i ∧
        s1.errout = s.errout ∧ s1.device_num = s.device_num)
    ⟨h, hl, rfl, rfl, rfl⟩ ?_ (fun _ h => h)
  intro i s1 hi ⟨⟨h1, h2, h3⟩, hl1, hid, he, hd⟩
  have hlen : i < env.platforms.length := by omega
  have hget : (List.range env.platforms.length)[i]?.getD 0 = i := by
    simp [List.getElem?_range hlen]
  simp only [Discovering, Quiet]
  by_cases hA : env.status s1.calls.length = CL_SUCCESS
  · by_cases ht : target = env.platform_name i
    · simp [hl1, hlen, hget, clGetPlatformInfo_apply, CHECK_ERROR_apply, hA, ← ht, or_imp,
        forall_and, platform_id_after, he, hd]
      exact ⟨h1, h2, h3⟩
    · simp [hl1, hlen, hget, clGetPlatformInfo_apply, CHECK_ERROR_apply, hA, ht, or_imp,
        forall_and, platform_id_after, he, hd, hid]
      exact ⟨h1, h2, h3⟩
  · simp [hl1, hlen, hget, clGetPlatformInfo_apply, CHECK_ERROR_apply, hA, or_imp,
      forall_and, hd]
    exact ⟨⟨h1, h2, h3⟩, not_allSucceed env hA⟩

theorem select_platform_spec (target : String) {s : State} (h : Discovering s)
    (hl : s.platform_list = List.range env.platforms.length)
    (hn : s.platform_num = env.platforms.length) :
    (select_platform env target s).sat
      (fun _ s1 => Discovering s1 ∧ s1.platform_list = List.range env.platforms.length ∧
        s1.platform_id = platform_id_after env target s.platform_id env.platforms.length ∧
        0 ≤ s1.platform_id ∧ s1.errout = s.errout ∧ s1.device_num = s.device_num)
      (fun c s1 => c = EXIT_FAILURE ∧ Discovering s1 ∧ s1.device_num = s.device_num ∧
        (¬AllSucceed env ∨
          (platform_id_after env target s.platform_id env.platforms.length < 0 ∧
            s1.platform_id = platform_id_after env target s.platform_id env.platforms.length ∧
            s1.errout = s.errout ++ [.crash "Can't find the required platform"]))) := by
  simp only [select_platform, sat_bind, get_apply, sat_ok, hn]
  refine sat_mono (platform_search_spec env target h hl le_rfl) ?_
    (fun c s1 ⟨h1, h2, h3, h4⟩ => ⟨h1, h2, h3, Or.inl h4⟩)
  intro _ s1 ⟨⟨h1, h2, h3⟩, hl1, hid, he, hd⟩
  simp only [Discovering, Quiet]
  by_cases hneg : s1.platform_id < 0
  · simp [hneg, crash_apply, he, hd, ← hid]
    exact ⟨h1, h2, h3⟩
  · simp [hneg, he, hd, ← hid, or_imp, forall_and, hl1]
    exact ⟨⟨h1, h2, h3⟩, by omega⟩

theorem get_devices_spec {s : State} (h : Discovering s)
    (hl : s.platform_list = List.range env.platforms.length)
    (hp : s.platform_id.toNat < env.platforms.length) :
    (get_devices env s).sat
      (fun _ s1 => Discovering s1 ∧ 2 ≤ s1.device_num ∧
        s1.device_num = env.device_count s.platform_id.toNat ∧
        s1.device_list = List.range s1.device_num ∧
        s1.platform_id = s.platform_id ∧ s1.errout = s.errout)
      (fun c s1 => c = EXIT_FAILURE ∧ Discovering s1 ∧ s1.platform_id = s.platform_id ∧
        (¬AllSucceed env ∨
          (s1.device_num = env.device_count s.platform_id.toNat ∧
            env.device_count s.platform_id.toNat < 2 ∧
            s1.errout = s.errout ++ [.crash "Not enough devices are available"]))) := by
  obtain ⟨h1, h2, h3⟩ := h
  have hget : (List.range env.platforms.length)[s.platform_id.toNat]?.getD 0 =
      s.platform_id.toNat := by
    simp [List.getElem?_range hp]
  simp only [Discovering, Quiet]
  by_cases hA : env.status s.calls.length = CL_SUCCESS
  · by_cases hfew : env.device_count s.platform_id.toNat < 2
    · simp [get_devices, hl, hp, hget, clGetDeviceIDs_count_apply, CHECK_ERROR_apply, hA, hfew,
        crash_apply, or_imp, forall_and]
      exact ⟨h1, h2, h3⟩
    · by_cases hB : env.status (s.calls.length + 1) = CL_SUCCESS
      · simp only [get_devices, sat_bind, get_apply, sat_ok, hl, sat_index, List.length_range,
          hp, true_and, List.getD_eq_getElem?_getD, hget, clGetDeviceIDs_count_apply,
          set_err_apply, CHECK_ERROR_apply, hA, if_true, ite_apply_M, hfew, if_false,
          pure_apply, printf_apply, modify_apply, clGetDeviceIDs_list_apply, List.length_append,
          List.length_singleton, hB]
        refine sat_for_up_to
          (fun _ s1 => Discovering s1 ∧ s1.device_num = env.device_count s.platform_id.toNat ∧
            s1.device_list = List.range (env.device_count s.platform_id.toNat) ∧
            s1.platform_id = s.platform_id ∧ s1.errout = s.errout) ?_ ?_ ?_
        · simp [Discovering, Quiet, or_imp, forall_and]
          exact ⟨h1, h2, h3⟩
        · intro i s1 hi ⟨⟨g1, g2, g3⟩, gn, gl, gp, ge⟩
          have hget2 : (List.range (env.device_count s.platform_id.toNat))[i]?.getD 0 = i := by
            simp [List.getElem?_range hi]
          simp only [Discovering, Quiet]
          by_cases hC : env.status s1.calls.length = CL_SUCCESS
          · simp [gl, hi, hget2, clGetDeviceInfo_apply, CHECK_ERROR_apply, hC, or_imp,
              forall_and, gn, gp, ge]
            exact ⟨g1, g2, g3⟩
          · simp [gl, hi, hget2, clGetDeviceInfo_apply, CHECK_ERROR_apply, hC, or_imp,
              forall_and, gn, gp, ge]
            exact ⟨⟨g1, g2, g3⟩, not_allSucceed env hC⟩
        · intro s1 ⟨g1, gn, gl, gp, ge⟩
          exact ⟨g1, by omega, gn, by rw [gn]; exact gl, gp, ge⟩
      · simp [get_devices, hl, hp, hget, clGetDeviceIDs_count_apply, CHECK_ERROR_apply, hA,
          hfew, not_lt.mp hfew, clGetDeviceIDs_list_apply, hB, or_imp, forall_and]
        exact ⟨⟨h1, h2, h3⟩, not_allSucceed env hB⟩
  · simp [get_devices, hl, hp, hget, clGetDeviceIDs_count_apply, CHECK_ERROR_apply, hA,
      or_imp, forall_and]
    exact ⟨⟨h1, h2, h3⟩, not_allSucceed env hA⟩

end Setup

/-! ### Queues, buffers and the whole of setup -/

section SetupResources
variable (env : Env)

/-- Enumeration of the platforms leaves `buffer_size` as it is. -/
theorem get_platforms_size (s : State) :
    (get_platforms env s).returns fun _ s1 => s1.buffer_size = s.buffer_size := by
  simp [get_platforms, clGetPlatformIDs_count_apply, clGetPlatformIDs_list_apply,
    CHECK_ERROR_apply]

theorem select_platform_size (target : String) (s : State) :
    (select_platform env target s).returns fun _ s1 => s1.buffer_size = s.buffer_size := by
  simp only [select_platform, platform_search, returns_bind, get_apply, returns_ok]
  refine returns_for_up_to (fun s1 => s1.buffer_size = s.buffer_size) rfl ?_ ?_
  · intro i s1 g
    by_cases ht : target = env.platform_name i <;>
      simp [clGetPlatformInfo_apply, CHECK_ERROR_apply, g, ht]
  · intro s1 g
    simp [crash_apply, g]

theorem get_devices_size (s : State) :
    (get_devices env s).returns fun _ s1 => s1.buffer_size = s.buffer_size := by
  simp only [get_devices, returns_bind, get_apply, returns_ok, returns_index,
    clGetDeviceIDs_count_apply, set_err_apply, CHECK_ERROR_apply, ite_apply_M,
    returns_ite, crash_apply, returns_halt, pure_apply, printf_apply, modify_apply,
    clGetDeviceIDs_list_apply, implies_true, true_and, and_true]
  intro _ _ _ _
  refine returns_for_up_to (fun s1 => s1.buffer_size = s.buffer_size) rfl ?_ (fun _ h => h)
  intro i s1 g
  simp [clGetDeviceInfo_apply, CHECK_ERROR_apply, g]

theorem create_queues_size (s : State) :
    (create_queues env s).returns fun _ s1 => s1.buffer_size = s.buffer_size := by
  simp only [create_queues, returns_bind, get_apply, returns_ok, clCreateContext, issue_apply,
    set_err_apply, CHECK_ERROR_apply, returns_ite, returns_halt, implies_true, and_true,
    printf_apply, modify_apply]
  intro _
  refine returns_for_up_to (fun s1 => s1.buffer_size = s.buffer_size) rfl ?_
    (fun s1 h => by simpa using h)
  intro i s1 g
  simp [clCreateCommandQueue_apply, store_queue, CHECK_ERROR_apply, g]

theorem create_queues_spec {s : State} (h : Quiet s)
    (hl : s.device_list.length = s.device_num) :
    (create_queues env s).sat
      (fun _ s1 => Quiet s1 ∧ s1.device_num = s.device_num ∧
        s1.queue_list.length = s.device_num ∧
        s1.platform_id = s.platform_id ∧ s1.errout = s.errout)
      (fun c s1 => c = EXIT_FAILURE ∧ s1.device_num = s.device_num ∧
        s1.platform_id = s.platform_id ∧ ¬AllSucceed env) := by
  obtain ⟨h2, h3⟩ := h
  by_cases hA : env.status s.calls.length = CL_SUCCESS
  · simp only [create_queues, sat_bind, get_apply, sat_ok, clCreateContext, issue_apply,
      set_err_apply, CHECK_ERROR_apply, hA, if_true, printf_apply, modify_apply]
    refine sat_for_up_to
      (fun _ s1 => Quiet s1 ∧ s1.device_num = s.device_num ∧
        s1.device_list = s.device_list ∧ s1.queue_list.length = s.device_num ∧
        s1.platform_id = s.platform_id ∧ s1.errout = s.errout) ?_ ?_ ?_
    · simp [Quiet, or_imp, forall_and]
      exact ⟨h2, h3⟩
    · intro i s1 hi ⟨⟨g2, g3⟩, gn, gl, gq, gp, ge⟩
      simp only [Quiet]
      by_cases hC : env.status s1.calls.length = CL_SUCCESS
      · simp [gl, hl, hi, clCreateCommandQueue_apply, store_queue, gq, CHECK_ERROR_apply, hC,
          gn, gp, ge]
        exact ⟨g2, g3⟩
      · simp [gl, hl, hi, clCreateCommandQueue_apply, store_queue, gq, CHECK_ERROR_apply, hC,
          gn, gp, ge]
        exact not_allSucceed env hC
    · intro s1 ⟨⟨g2, g3⟩, gn, gl, gq, gp, ge⟩
      simp [Quiet, or_imp, forall_and, gn, gq, gp, ge]
      exact ⟨g2, g3⟩
  · simp [create_queues, clCreateContext, CHECK_ERROR_apply, hA]
    exact not_allSucceed env hA

theorem create_buffers_spec {s : State} (h : Quiet s)
    (hq : s.queue_list.length = s.device_num) (hn : 0 < s.device_num) :
    (create_buffers env s).ends
      (fun _ s1 => Quiet s1 ∧ s1.device_num = s.device_num ∧ WF s1 ∧ s1.err = CL_SUCCESS ∧
        s1.platform_id = s.platform_id ∧ s1.errout = s.errout ∧
        env.alloc s.buffer_size = true ∧ s.buffer_size ≤ INT_MAX)
      (fun c s1 => c = EXIT_FAILURE ∧ s1.device_num = s.device_num ∧
        s1.platform_id = s.platform_id ∧ ¬AllSucceed env)
      (fun f s1 => Quiet s1 ∧ s1.device_num = s.device_num ∧
        s1.platform_id = s.platform_id ∧ s1.errout = s.errout ∧
        ((f = .bad_alloc ∧ env.alloc s.buffer_size = false) ∨
          (f = .overflow ∧ env.alloc s.buffer_size = true ∧ INT_MAX < s.buffer_size))) := by
  obtain ⟨h2, h3⟩ := h
  simp only [create_buffers, ends_bind, get_apply, ends_ok, modify_apply]
  refine ends_for_up_to
    (fun _ s1 => Quiet s1 ∧ s1.device_num = s.device_num ∧
      s1.queue_list.length = s.device_num ∧ s1.buffer_list.length = s.device_num ∧
      s1.platform_id = s.platform_id ∧ s1.errout = s.errout ∧
      s1.buffer_size = s.buffer_size) ?_ ?_ ?_
  · simp [Quiet, hq]
    exact ⟨h2, h3⟩
  · intro i s1 hi ⟨⟨g2, g3⟩, gn, gq, gb, gp, ge, gz⟩
    simp only [Quiet]
    by_cases hC : env.status s1.calls.length = CL_SUCCESS
    · simp [hi, clCreateBuffer_apply, store_buffer, gb, gq, CHECK_ERROR_apply, hC, gn, gp, ge,
        gz]
      exact ⟨g2, g3⟩
    · simp [hi, clCreateBuffer_apply, store_buffer, gb, gq, CHECK_ERROR_apply, hC, gn, gp, ge,
        gz]
      exact not_allSucceed env hC
  · intro s1 ⟨⟨g2, g3⟩, gn, gq, gb, gp, ge, gz⟩
    by_cases ha : env.alloc s.buffer_size = true
    swap
    · simp only [ends_bind, get_apply, ends_ok, new_doubles_apply, gz, ha, if_false,
        Bool.false_eq_true, ends_fault]
      have ha2 : env.alloc s.buffer_size = false := by simpa using ha
      refine ⟨⟨g2, g3⟩, gn, gp, ge, ?_⟩
      simp [ha2]
    by_cases hm : s.buffer_size ≤ INT_MAX
    swap
    · simp only [ends_bind, get_apply, ends_ok, new_doubles_apply, gz, ha, if_true,
        modify_apply, fill_apply, hm, if_false, ends_fault]
      refine ⟨⟨g2, g3⟩, gn, gp, ge, ?_⟩
      simp [ha]
      omega
    simp only [ends_bind, get_apply, ends_ok, new_doubles_apply, gz, ha, if_true,
      modify_apply, fill_apply, hm, printf_apply, gn]
    refine ends_for_up_to
      (fun i s2 => Quiet s2 ∧ s2.device_num = s.device_num ∧
        s2.queue_list.length = s.device_num ∧ s2.buffer_list.length = s.device_num ∧
        s2.platform_id = s.platform_id ∧ s2.errout = s.errout ∧
        (0 < i → s2.err = CL_SUCCESS)) ?_ ?_ ?_
    · simp [Quiet, gn, gq, gb, gp, ge]
      exact ⟨g2, g3⟩
    · intro i s2 hi ⟨⟨k2, k3⟩, kn, kq, kb, kp, ke, _⟩
      simp only [Quiet]
      by_cases hC : env.status s2.calls.length = CL_SUCCESS
      · simp [hi, kq, kb, clEnqueueWriteBuffer_apply, CHECK_ERROR_apply, hC, kn, kp, ke]
        exact ⟨k2, k3⟩
      · simp [hi, kq, kb, clEnqueueWriteBuffer_apply, CHECK_ERROR_apply, hC, kn, kp, ke]
        exact not_allSucceed env hC
    · intro s2 ⟨⟨k2, k3⟩, kn, kq, kb, kp, ke, kerr⟩
      simp [Quiet, or_imp, forall_and, WF, kn, kq, kb, kp, ke, kerr hn, ha, hm]
      exact ⟨k2, k3⟩

theorem to_cl_int_toNat_le {k : Nat} (h : 0 ≤ to_cl_int k) : (to_cl_int k).toNat ≤ k := by
  unfold to_cl_int at h ⊢
  split at h
  · rw [if_pos (by assumption)]
    simp only [Int.toNat_ofNat]
    exact Nat.mod_le _ _
  · omega

theorem to_cl_int_small {k : Nat} (h : k < 2147483648) : to_cl_int k = (k : Int) := by
  unfold to_cl_int
  have : k % 4294967296 = k := Nat.mod_eq_of_lt (by omega)
  rw [this, if_pos h]

theorem platform_id_after_cases (target : String) (id0 : Int) (n : Nat) :
    platform_id_after env target id0 n = id0 ∨
      ∃ k, k < n ∧ target = env.platform_name k ∧
        platform_id_after env target id0 n = to_cl_int k := by
  induction n with
  | zero => exact Or.inl rfl
  | succ n ih =>
    by_cases ht : target = env.platform_name n
    · exact Or.inr ⟨n, by omega, ht, by simp [platform_id_after, ← ht]⟩
    · rcases ih with h | ⟨k, hk, hkt, h⟩
      · exact Or.inl (by simp [platform_id_after, ht, h])
      · exact Or.inr ⟨k, by omega, hkt, by simp [platform_id_after, ht, h]⟩

theorem platform_id_after_last (target : String) (id0 : Int) (n i : Nat) (hi : i < n)
    (ht : env.platform_name i = target)
    (hlast : ∀ j, i < j → j < n → env.platform_name j ≠ target) :
    platform_id_after env target id0 n = to_cl_int i := by
  induction n with
  | zero => omega
  | succ n ih =>
    by_cases hin : i = n
    · subst hin
      simp [platform_id_after, ht]
    · have hn : ¬target = env.platform_name n := fun e => hlast n (by omega) (by omega) e.symm
      simp only [platform_id_after, hn, if_false]
      exact ih (by omega) fun j h1 h2 => hlast j h1 (by omega)

theorem platform_id_after_toNat_lt (target : String) {id0 : Int} (hneg : id0 < 0) (n : Nat)
    (h : 0 ≤ platform_id_after env target id0 n) :
    (platform_id_after env target id0 n).toNat < n := by
  rcases platform_id_after_cases env target id0 n with h1 | ⟨k, hk, _, h1⟩
  · omega
  · rw [h1] at h ⊢
    have := to_cl_int_toNat_le h
    omega

theorem initialize_platform_spec (target : String) {s : State} (h : Discovering s)
    (hneg : s.platform_id < 0) :
    (initialize_platform env target s).ends
      (fun _ s1 => Inv s1 ∧ s1.err = CL_SUCCESS ∧ Quiet s1 ∧
        s1.platform_id = platform_id_after env target s.platform_id env.platforms.length ∧
        0 ≤ s1.platform_id ∧
        s1.device_num = env.device_count s1.platform_id.toNat ∧ s1.errout = s.errout ∧
        env.alloc s.buffer_size = true ∧ s.buffer_size ≤ INT_MAX)
      (fun c s1 => c = EXIT_FAILURE ∧ (Discovering s1 ∨ 2 ≤ s1.device_num) ∧
        (¬AllSucceed env ∨
          (platform_id_after env target s.platform_id env.platforms.length < 0 ∧
            s1.errout = s.errout ++ [.crash "Can't find the required platform"]) ∨
          (s1.platform_id = platform_id_after env target s.platform_id env.platforms.length ∧
            0 ≤ s1.platform_id ∧ s1.device_num = env.device_count s1.platform_id.toNat ∧
            env.device_count s1.platform_id.toNat < 2 ∧
            s1.errout = s.errout ++ [.crash "Not enough devices are available"])))
      (fun f s1 => 2 ≤ s1.device_num ∧ Quiet s1 ∧
        s1.platform_id = platform_id_after env target s.platform_id env.platforms.length ∧
        0 ≤ s1.platform_id ∧
        s1.device_num = env.device_count s1.platform_id.toNat ∧ s1.errout = s.errout ∧
        ((f = .bad_alloc ∧ env.alloc s.buffer_size = false) ∨
          (f = .overflow ∧ env.alloc s.buffer_size = true ∧ INT_MAX < s.buffer_size))) := by
  have h0 : Discovering { s with
      entered := s.entered ++ [.initialize_platform], out := s.out ++ [separator] } := by
    obtain ⟨h1, h2, h3⟩ := h
    simp [Discovering, Quiet, or_imp, forall_and, separator]
    exact ⟨h1, h2, h3⟩
  simp only [initialize_platform, ends_bind, enter_apply, printf_apply, ends_ok]
  refine ends_of_sat (sat_and_returns (get_platforms_spec env h0) (get_platforms_size env _)) ?_
    (fun c s1 ⟨g1, g2, _, _, g5⟩ => ⟨g1, Or.inl g2, Or.inl g5⟩)
  intro _ s1 ⟨⟨g1, gl, gn, gp, ge, gd⟩, gz⟩
  refine ends_of_sat
    (sat_and_returns (select_platform_spec env target g1 gl gn)
      (select_platform_size env target _)) ?_ ?_
  swap
  · rintro c s2 ⟨k1, k2, _, k4⟩
    refine ⟨k1, Or.inl k2, ?_⟩
    rcases k4 with k4 | ⟨k4, _, k6⟩
    · exact Or.inl k4
    · exact Or.inr (Or.inl ⟨by rw [← gp]; exact k4, by rw [k6, ge]⟩)
  intro _ s2 ⟨⟨k1, kl, kp, k0, ke, kd⟩, kz⟩
  have kp2 : s2.platform_id =
      platform_id_after env target s.platform_id env.platforms.length := by
    rw [kp, gp]
  have klt : s2.platform_id.toNat < env.platforms.length := by
    rw [kp2] at k0 ⊢
    exact platform_id_after_toNat_lt env target hneg _ k0
  refine ends_of_sat (sat_and_returns (get_devices_spec env k1 kl klt) (get_devices_size env _))
    ?_ ?_
  swap
  · rintro c s3 ⟨m1, m2, m3, m4⟩
    refine ⟨m1, Or.inl m2, ?_⟩
    rcases m4 with m4 | ⟨m6, m4, m5⟩
    · exact Or.inl m4
    · exact Or.inr (Or.inr ⟨by rw [m3, kp2], by rw [m3]; exact k0, by rw [m3]; exact m6,
        by rw [m3]; exact m4, by rw [m5, ke, ge]⟩)
  intro _ s3 ⟨⟨m1, m2, mn, ml, mp, me⟩, mz⟩
  refine ends_of_sat
    (sat_and_returns (create_queues_spec env m1.2 (by rw [ml, List.length_range]))
      (create_queues_size env _)) ?_
    (fun c s4 ⟨n1, n2, _, n4⟩ => ⟨n1, Or.inr (by omega), Or.inl n4⟩)
  intro _ s4 ⟨⟨n1, nn, nq, np, ne⟩, nz⟩
  have hsize : s4.buffer_size = s.buffer_size := by
    rw [nz, mz, kz, gz]
  have hpid4 : s4.platform_id = s2.platform_id := by rw [np, mp]
  refine ends_mono (create_buffers_spec env n1 (by rw [nq, nn]) (by omega)) ?_
    (fun c s5 ⟨p1, p2, _, p4⟩ => ⟨p1, Or.inr (by omega), Or.inl p4⟩) ?_
  swap
  · rintro f s5 ⟨p1, pn, pp, pe, pc⟩
    have hpid : s5.platform_id = s2.platform_id := by rw [pp, hpid4]
    rw [hsize] at pc
    refine ⟨by omega, p1, by rw [hpid, kp2], by rw [hpid]; exact k0, ?_, ?_, pc⟩
    · rw [hpid, pn, nn, mn]
    · rw [pe, ne, me, ke, ge]
  intro _ s5 ⟨⟨p2, p3⟩, pn, pw, perr, pp, pe, pa, pm⟩
  have hpid : s5.platform_id = s2.platform_id := by rw [pp, hpid4]
  rw [hsize] at pa pm
  simp only [Inv, Quiet, WF]
  simp [or_imp, forall_and, separator, perr, pe, ne, me, ke, ge, pa, pm]
  refine ⟨⟨pw, by omega⟩, ⟨p2, p3⟩, by rw [hpid, kp2], by rw [hpid]; exact k0, ?_⟩
  rw [hpid, pn, nn, mn]

end SetupResources

/-! ## The script -/

section Script
variable (env : Env)

theorem inv_of_same {s s1 : State} (h : Inv s) (hs : Same s s1) : Inv s1 := by
  obtain ⟨⟨h1, h2⟩, h3⟩ := h
  obtain ⟨g1, g2, g3⟩ := hs
  exact ⟨⟨by rw [g2, g1]; exact h1, by rw [g3, g1]; exact h2⟩, by rw [g1]; exact h3⟩

theorem safe_bind {m k : M Unit} (hm : Safe m) (hk : Safe k) : Safe (m >>= fun _ => k) := by
  intro s h
  rw [sat_bind]
  exact sat_mono (hm s h) (fun _ s1 h1 => hk s1 h1) (fun _ _ h => h)

theorem safe_printf (l : Line) : Safe (printf l) := by
  intro s h
  simpa [Inv, WF] using h

theorem safe_write (r : Int) : Safe (profile_write_operation env r) := fun _ h =>
  sat_mono (profile_write_operation_safe env r h.1) (fun _ _ g => inv_of_same h g)
    (fun _ _ g => ⟨g.1, inv_of_same h g.2⟩)

theorem safe_read (r : Int) : Safe (profile_read_operation env r) := fun _ h =>
  sat_mono (profile_read_operation_safe env r h.1) (fun _ _ g => inv_of_same h g)
    (fun _ _ g => ⟨g.1, inv_of_same h g.2⟩)

theorem safe_copy (r : Int) {src : Nat} (hsrc : src < 2) :
    Safe (profile_copy_operation env r src) := fun s h =>
  sat_mono (profile_copy_operation_safe env r h.1 (by have := h.2; omega))
    (fun _ _ g => inv_of_same h g) (fun _ _ g => ⟨g.1, inv_of_same h g.2⟩)

theorem safe_migrate (r : Int) {dst : Nat} (hdst : dst < 2) :
    Safe (profile_migrate_operation env r dst) := fun s h =>
  sat_mono (profile_migrate_operation_safe env r h.1 (by have := h.2; omega))
    (fun _ _ g => inv_of_same h g) (fun _ _ g => ⟨g.1, inv_of_same h g.2⟩)

theorem script_safe : Safe (script env) := by
  unfold script
  refine safe_bind (safe_printf _) ?_
  refine safe_bind (safe_write env _) ?_
  refine safe_bind (safe_read env _) ?_
  refine safe_bind (safe_printf _) ?_
  refine safe_bind (safe_printf _) ?_
  refine safe_bind (safe_copy env _ (by decide)) ?_
  refine safe_bind (safe_copy env _ (by decide)) ?_
  refine safe_bind (safe_copy env _ (by decide)) ?_
  refine safe_bind (safe_printf _) ?_
  refine safe_bind (safe_printf _) ?_
  refine safe_bind (safe_write env _) ?_
  refine safe_bind (safe_copy env _ (by decide)) ?_
  refine safe_bind (safe_printf _) ?_
  refine safe_bind (safe_printf _) ?_
  refine safe_bind (safe_copy env _ (by decide)) ?_
  refine safe_bind (safe_copy env _ (by decide)) ?_
  refine safe_bind (safe_copy env _ (by decide)) ?_
  refine safe_bind (safe_copy env _ (by decide)) ?_
  refine safe_bind (safe_copy env _ (by decide)) ?_
  refine safe_bind (safe_copy env _ (by decide)) ?_
  refine safe_bind (safe_printf _) ?_
  refine safe_bind (safe_printf _) ?_
  refine safe_bind (safe_migrate env _ (by decide)) ?_
  refine safe_bind (safe_migrate env _ (by decide)) ?_
  refine safe_bind (safe_migrate env _ (by decide)) ?_
  exact safe_migrate env _ (by decide)

theorem others_length {d n : Nat} (h : d < n) : (others d n).length = n - 1 := by
  have key : ∀ i, (others d i).length = if d < i then i - 1 else i := by
    intro i
    induction i with
    | zero => simp [others]
    | succ i ih =>
      rw [others_succ]
      by_cases hid : i = d
      · subst hid; simp [ih]
      · simp only [hid, if_false, List.length_append, List.length_singleton, ih]
        by_cases hlt : d < i
        · rw [if_pos hlt, if_pos (by omega)]; omega
        · rw [if_neg hlt, if_neg (by omega)]
  rw [key n, if_pos h]

theorem countP_throughput_map {α : Type} (f : α → Line) (l : List α)
    (hf : ∀ a, (f a).is_throughput = true) :
    (l.map f).countP Line.is_throughput = l.length := by
  induction l with
  | nil => rfl
  | cons a l ih => simp [List.countP_cons, hf a, ih]

theorem throughput_lines_append (s : State) (ls : List Line) :
    (s.out ++ ls).countP Line.is_throughput = throughput_lines s +
      ls.countP Line.is_throughput := by
  simp [throughput_lines, List.countP_append]

theorem prints_bind {n k1 k2 : Nat} {m k : M Unit} (hm : Prints n k1 m) (hk : Prints n k2 k) :
    Prints n (k1 + k2) (m >>= fun _ => k) := by
  intro s h hn
  obtain ⟨s1, e1, r1, n1, c1⟩ := hm s h hn
  obtain ⟨s2, e2, r2, n2, c2⟩ := hk s1 r1 n1
  refine ⟨s2, by rw [bind_apply, e1]; exact e2, r2, n2, by omega⟩

theorem prints_printf (n : Nat) (t : String) : Prints n 0 (printf (.text t)) := by
  intro s h hn
  refine ⟨_, rfl, h, hn, ?_⟩
  simp [throughput_lines, List.countP_append]

variable {env}

theorem prints_write (hs : AllSucceed env) (n : Nat) (r : Int) :
    Prints n n (profile_write_operation env r) := by
  intro s h hn
  refine ⟨_, profile_write_operation_ok hs h.1.1 r, h, hn, ?_⟩
  show (s.out ++ _).countP Line.is_throughput = _
  rw [throughput_lines_append, countP_throughput_map, List.length_range, hn]
  exact fun _ => rfl

theorem prints_read (hs : AllSucceed env) (n : Nat) (r : Int) :
    Prints n n (profile_read_operation env r) := by
  intro s h hn
  refine ⟨_, profile_read_operation_ok hs h.1.1 r, h, hn, ?_⟩
  show (s.out ++ _).countP Line.is_throughput = _
  rw [throughput_lines_append, countP_throughput_map, List.length_range, hn]
  exact fun _ => rfl

theorem prints_copy (hs : AllSucceed env) (n : Nat) (r : Int) {src : Nat} (hsrc : src < n) :
    Prints n (n - 1) (profile_copy_operation env r src) := by
  intro s h hn
  refine ⟨_, profile_copy_operation_ok hs h.1.1 r (by omega), ⟨h.1, ?_⟩, hn, ?_⟩
  · show (if _ then s.err else CL_SUCCESS) = CL_SUCCESS
    split
    · exact h.2
    · rfl
  · show (s.out ++ _).countP Line.is_throughput = _
    rw [throughput_lines_append, countP_throughput_map, hn, others_length hsrc]
    exact fun _ => rfl

theorem prints_migrate (hs : AllSucceed env) (n : Nat) (r : Int) {dst : Nat} (hdst : dst < n) :
    Prints n (n - 1) (profile_migrate_operation env r dst) := by
  intro s h hn
  refine ⟨_, profile_migrate_operation_ok hs h.1.1 h.2 r (by omega), h, hn, ?_⟩
  show (s.out ++ _).countP Line.is_throughput = _
  rw [throughput_lines_append, countP_throughput_map, hn, others_length hdst]
  exact fun _ => rfl

theorem script_prints (hs : AllSucceed env) {n : Nat} (hn : 2 ≤ n) :
    Prints n (3 * n + 14 * (n - 1)) (script env) := by
  have h0 : 0 < n := by omega
  have h1 : 1 < n := by omega
  have key : Prints n
      (0 + (n + (n + (0 + (0 + ((n - 1) + ((n - 1) + ((n - 1) + (0 + (0 + (n + ((n - 1) +
        (0 + (0 + ((n - 1) + ((n - 1) + ((n - 1) + ((n - 1) + ((n - 1) + ((n - 1) +
        (0 + (0 + ((n - 1) + ((n - 1) + ((n - 1) + (n - 1))))))))))))))))))))))))))
      (script env) := by
    unfold script
    refine prints_bind (prints_printf n _) ?_
    refine prints_bind (prints_write hs n _) ?_
    refine prints_bind (prints_read hs n _) ?_
    refine prints_bind (prints_printf n _) ?_
    refine prints_bind (prints_printf n _) ?_
    refine prints_bind (prints_copy hs n _ h0) ?_
    refine prints_bind (prints_copy hs n _ h0) ?_
    refine prints_bind (prints_copy hs n _ h0) ?_
    refine prints_bind (prints_printf n _) ?_
    refine prints_bind (prints_printf n _) ?_
    refine prints_bind (prints_write hs n _) ?_
    refine prints_bind (prints_copy hs n _ h0) ?_
    refine prints_bind (prints_printf n _) ?_
    refine prints_bind (prints_printf n _) ?_
    refine prints_bind (prints_copy hs n _ h1) ?_
    refine prints_bind (prints_copy hs n _ h0) ?_
    refine prints_bind (prints_copy hs n _ h1) ?_
    refine prints_bind (prints_copy hs n _ h0) ?_
    refine prints_bind (prints_copy hs n _ h1) ?_
    refine prints_bind (prints_copy hs n _ h0) ?_
    refine prints_bind (prints_printf n _) ?_
    refine prints_bind (prints_printf n _) ?_
    refine prints_bind (prints_migrate hs n _ h0) ?_
    refine prints_bind (prints_migrate hs n _ h0) ?_
    refine prints_bind (prints_migrate hs n _ h0) ?_
    exact prints_migrate hs n _ h0
  intro s h hd
  obtain ⟨s1, e1, r1, n1, c1⟩ := key s h hd
  exact ⟨s1, e1, r1, n1, by omega⟩

end Script

/-! ## The entry routine -/

section Main
variable (env : Env)

theorem main_usage {argv : List String} (h : argv.length ≠ 2) :
    run_main env argv = .ok 1 { State.init with out := [.usage (argv.getD 0 "")] } := by
  simp [run_main, main, h, bind_apply, State.init]

theorem main_small {argv : List String} (h : argv.length = 2)
    (h8 : to_cl_uint (atoi (argv.getD 1 "")) ≤ 8) :
    run_main env argv = .ok 1 { State.init with
      buffer_size := to_cl_uint (atoi (argv.getD 1 ""))
      out := [.size_error] } := by
  simp only [run_main, main, h, ne_eq, not_true_eq_false, if_false, bind_apply, modify_apply,
    get_apply, h8, if_true, printf_apply, pure_apply, State.init, List.nil_append]

theorem main_valid {argv : List String} (h : ValidArgs argv) :
    run_main env argv =
      match initialize_platform env target (State.start argv) with
      | .ok _ s1 =>
        match script env s1 with
        | .ok _ s2 => .ok 0 { s2 with
            platform_list := [], device_list := [], queue_list := [], buffer_list := [],
            buffer_host := [], entered := s2.entered ++ [.deinitialize_platform] }
        | .halt c s2 => .halt c s2
        | .oob s2 => .oob s2
        | .fault f s2 => .fault f s2
      | .halt c s1 => .halt c s1
      | .oob s1 => .oob s1
      | .fault f s1 => .fault f s1 := by
  obtain ⟨h2, h8⟩ := h
  simp only [run_main, main, h2, ne_eq, not_true_eq_false, if_false, bind_apply, modify_apply,
    get_apply, not_le.mpr h8, printf_apply, State.init, List.nil_append, target, State.start,
    deinitialize_platform, enter_apply, pure_apply]
  generalize initialize_platform env _ _ = o
  cases o with
  | ok a s1 =>
    simp only []
    generalize script env s1 = o2
    cases o2 <;> rfl
  | halt c s1 => rfl
  | oob s1 => rfl
  | fault f s1 => rfl

theorem start_discovering (argv : List String) : Discovering (State.start argv) := by
  simp [Discovering, Quiet, State.start, State.init]

theorem start_platform_id (argv : List String) : (State.start argv).platform_id = -1 := rfl

/-- Every run: how it ends, and in what state. -/
theorem main_spec (argv : List String) :
    (run_main env argv).ends
      (fun code s => (code = 1 ∧ ¬ValidArgs argv ∧ s.calls = [] ∧ s.entered = [] ∧
          s.device_num = 0) ∨ (code = 0 ∧ ValidArgs argv ∧ 2 ≤ s.device_num))
      (fun c s => c = EXIT_FAILURE ∧ ValidArgs argv ∧ (Discovering s ∨ 2 ≤ s.device_num))
      (fun f s => ValidArgs argv ∧ 2 ≤ s.device_num ∧ Quiet s ∧
        ((f = .bad_alloc ∧ env.alloc (State.start argv).buffer_size = false) ∨
          (f = .overflow ∧ env.alloc (State.start argv).buffer_size = true ∧
            INT_MAX < (State.start argv).buffer_size))) := by
  by_cases h2 : argv.length = 2
  · by_cases h8 : to_cl_uint (atoi (argv.getD 1 "")) ≤ 8
    · rw [main_small env h2 h8]
      exact Or.inl ⟨rfl, fun h => absurd h.2 (by omega), rfl, rfl, rfl⟩
    · have hv : ValidArgs argv := ⟨h2, by omega⟩
      rw [main_valid env hv]
      have hi := initialize_platform_spec env target (start_discovering argv)
        (by rw [start_platform_id]; decide)
      cases hinit : initialize_platform env target (State.start argv) with
      | ok a s1 =>
        rw [hinit] at hi
        have hs := script_safe env s1 hi.1
        dsimp only
        cases hscript : script env s1 with
        | ok a s2 =>
          rw [hscript] at hs
          exact Or.inr ⟨rfl, hv, hs.2⟩
        | halt c s2 =>
          rw [hscript] at hs
          exact ⟨hs.1, hv, Or.inr hs.2.2⟩
        | oob s2 => rw [hscript] at hs; exact hs
        | fault f s2 => rw [hscript] at hs; exact hs.elim
      | halt c s1 =>
        rw [hinit] at hi
        exact ⟨hi.1, hv, hi.2.1⟩
      | oob s1 => rw [hinit] at hi; exact hi
      | fault f s1 =>
        rw [hinit] at hi
        obtain ⟨g1, g2, _, _, _, _, g7⟩ := hi
        exact ⟨hv, g1, g2, g7⟩
  · rw [main_usage env h2]
    exact Or.inl ⟨rfl, fun h => h2 h.1, rfl, rfl, rfl⟩

end Main

/-! ## The run when every call succeeds -/

section Run
variable (env : Env)

theorem platform_id_after_neg_iff (t : String) {id0 : Int} (hneg : id0 < 0) (n : Nat)
    (hn : n ≤ 2147483648) :
    platform_id_after env t id0 n < 0 ↔ ∀ k, k < n → env.platform_name k ≠ t := by
  induction n with
  | zero => simp [platform_id_after, hneg]
  | succ n ih =>
    by_cases ht : t = env.platform_name n
    · have h0 : ¬(to_cl_int n < 0) := by rw [to_cl_int_small (by omega)]; omega
      simp only [platform_id_after, ht, if_true]
      rw [← ht]
      constructor
      · intro h; exact absurd h h0
      · intro h; exact absurd ht.symm (h n (by omega))
    · simp only [platform_id_after, ht, if_false]
      rw [ih (by omega)]
      constructor
      · intro h k hk
        by_cases hkn : k = n
        · subst hkn; exact fun e => ht e.symm
        · exact h k (by omega)
      · intro h k hk; exact h k (by omega)

theorem selected_of_last {p : Nat} (hp : p < env.platforms.length)
    (hname : env.platform_name p = target)
    (hlast : ∀ j, p < j → j < env.platforms.length → env.platform_name j ≠ target)
    (hp31 : p < 2147483648) : env.selected = (p : Int) := by
  unfold Env.selected
  rw [platform_id_after_last env target (-1) _ p hp hname hlast, to_cl_int_small hp31]

/-- Setup returns normally when every call succeeds, the selected platform has
two devices or more, the host allocates the host buffer and `buffer_size` is an
`int`. -/
theorem initialize_platform_ok (hs : AllSucceed env) (argv : List String) {p n : Nat}
    (hsel : env.selected = (p : Int)) (hdev : env.device_count p = n) (hn : 2 ≤ n)
    (ha : env.alloc (State.start argv).buffer_size = true)
    (hm : (State.start argv).buffer_size ≤ INT_MAX) :
    ∃ s1, initialize_platform env target (State.start argv) = .ok () s1 ∧ Ready s1 ∧
      s1.device_num = n ∧ throughput_lines s1 = 0 := by
  have hi := initialize_platform_spec env target (start_discovering argv)
    (by rw [start_platform_id]; decide)
  rw [start_platform_id] at hi
  change (initialize_platform env target (State.start argv)).ends _ _ _ at hi
  cases hinit : initialize_platform env target (State.start argv) with
  | ok a s1 =>
    rw [hinit] at hi
    obtain ⟨h1, h2, h3, h4, _, h6, _⟩ := hi
    have hsel2 : platform_id_after env target (-1) env.platforms.length = (p : Int) := hsel
    refine ⟨s1, rfl, ⟨h1, h2⟩, ?_, ?_⟩
    · rw [h6, h4, hsel2, Int.toNat_ofNat, hdev]
    · unfold throughput_lines
      rw [List.countP_eq_zero]
      intro l hl
      simp [h3.1 l hl]
  | halt c s1 =>
    rw [hinit] at hi
    obtain ⟨_, _, h3⟩ := hi
    have hsel2 : platform_id_after env target (-1) env.platforms.length = (p : Int) := hsel
    rcases h3 with h3 | ⟨h3, _⟩ | ⟨h3, _, _, h5, _⟩
    · exact absurd hs h3
    · rw [hsel2] at h3; omega
    · rw [h3, hsel2, Int.toNat_ofNat, hdev] at h5; omega
  | oob s1 => rw [hinit] at hi; exact hi.elim
  | fault f s1 =>
    rw [hinit] at hi
    obtain ⟨_, _, _, _, _, _, h7⟩ := hi
    rcases h7 with ⟨_, h7⟩ | ⟨_, _, h7⟩
    · rw [ha] at h7; cases h7
    · omega

/-- Setup stops on a fault, although every call succeeds and the selected
platform has two devices or more, when the host does not allocate the host
buffer or `buffer_size` is not an `int`. -/
theorem initialize_platform_fault (hs : AllSucceed env) (argv : List String) {p n : Nat}
    (hsel : env.selected = (p : Int)) (hdev : env.device_count p = n) (hn : 2 ≤ n)
    (hbad : env.alloc (State.start argv).buffer_size = false ∨
      INT_MAX < (State.start argv).buffer_size) :
    ∃ f s1, initialize_platform env target (State.start argv) = .fault f s1 ∧
      throughput_lines s1 = 0 := by
  have hi := initialize_platform_spec env target (start_discovering argv)
    (by rw [start_platform_id]; decide)
  rw [start_platform_id] at hi
  change (initialize_platform env target (State.start argv)).ends _ _ _ at hi
  cases hinit : initialize_platform env target (State.start argv) with
  | ok a s1 =>
    rw [hinit] at hi
    obtain ⟨_, _, _, _, _, _, _, h8, h9⟩ := hi
    rcases hbad with hbad | hbad
    · rw [h8] at hbad; cases hbad
    · omega
  | halt c s1 =>
    rw [hinit] at hi
    obtain ⟨_, _, h3⟩ := hi
    have hsel2 : platform_id_after env target (-1) env.platforms.length = (p : Int) := hsel
    rcases h3 with h3 | ⟨h3, _⟩ | ⟨h3, _, _, h5, _⟩
    · exact absurd hs h3
    · rw [hsel2] at h3; omega
    · rw [h3, hsel2, Int.toNat_ofNat, hdev] at h5; omega
  | oob s1 => rw [hinit] at hi; exact hi.elim
  | fault f s1 =>
    rw [hinit] at hi
    refine ⟨f, s1, rfl, ?_⟩
    unfold throughput_lines
    rw [List.countP_eq_zero]
    intro l hl
    simp [hi.2.1.1 l hl]

/-- The whole run when every call succeeds, the host allocates the host buffer
and `buffer_size` is an `int`. -/
theorem main_ok (hs : AllSucceed env) {argv : List String} (hv : ValidArgs argv) {p n : Nat}
    (hsel : env.selected = (p : Int)) (hdev : env.device_count p = n) (hn : 2 ≤ n)
    (ha : env.alloc (State.start argv).buffer_size = true)
    (hm : (State.start argv).buffer_size ≤ INT_MAX) :
    ∃ s, run_main env argv = .ok 0 s ∧ throughput_lines s = 3 * n + 14 * (n - 1) := by
  obtain ⟨s1, e1, r1, n1, c1⟩ := initialize_platform_ok env hs argv hsel hdev hn ha hm
  obtain ⟨s2, e2, _, _, c2⟩ := script_prints hs hn s1 r1 n1
  rw [main_valid env hv, e1]
  dsimp only
  rw [e2]
  refine ⟨_, rfl, ?_⟩
  show s2.out.countP Line.is_throughput = _
  have : throughput_lines s2 = s2.out.countP Line.is_throughput := rfl
  omega

/-- The run once setup has returned, when every call succeeds: the script
prints its lines and `main` returns 0. -/
theorem main_after_setup (hs : AllSucceed env) {argv : List String} (hv : ValidArgs argv)
    {s0 : State} (h0 : initialize_platform env target (State.start argv) = .ok () s0) :
    ∃ s, run_main env argv = .ok 0 s ∧
      throughput_lines s = 3 * s0.device_num + 14 * (s0.device_num - 1) := by
  have hi := initialize_platform_spec env target (start_discovering argv)
    (by rw [start_platform_id]; decide)
  rw [h0] at hi
  obtain ⟨h1, h2, h3, _⟩ := hi
  have c0 : throughput_lines s0 = 0 := by
    unfold throughput_lines
    rw [List.countP_eq_zero]
    intro l hl
    simp [h3.1 l hl]
  obtain ⟨s2, e2, _, _, c2⟩ := script_prints hs h1.2 s0 ⟨h1, h2⟩ rfl
  rw [main_valid env hv, h0]
  dsimp only
  rw [e2]
  refine ⟨_, rfl, ?_⟩
  show s2.out.countP Line.is_throughput = _
  have : throughput_lines s2 = s2.out.countP Line.is_throughput := rfl
  omega

/-- The whole run when the host buffer cannot be had: the run stops on a fault
in setup, before any throughput line. -/
theorem main_fault (hs : AllSucceed env) {argv : List String} (hv : ValidArgs argv) {p n : Nat}
    (hsel : env.selected = (p : Int)) (hdev : env.device_count p = n) (hn : 2 ≤ n)
    (hbad : env.alloc (State.start argv).buffer_size = false ∨
      INT_MAX < (State.start argv).buffer_size) :
    ∃ f s, run_main env argv = .fault f s ∧ throughput_lines s = 0 := by
  obtain ⟨f, s1, e1, c1⟩ := initialize_platform_fault env hs argv hsel hdev hn hbad
  rw [main_valid env hv, e1]
  exact ⟨f, s1, rfl, c1⟩

end Run

/-! ## Setup from any state -/

section SetupReturns
variable (env : Env)

theorem get_devices_returns (s : State) :
    (get_devices env s).returns fun _ s1 =>
      2 ≤ s1.device_num ∧ s1.device_list.length = s1.device_num := by
  by_cases hA : env.status s.calls.length = CL_SUCCESS
  · by_cases hB : env.status (s.calls.length + 1) = CL_SUCCESS
    · simp only [get_devices, returns_bind, get_apply, returns_ok, returns_index,
        clGetDeviceIDs_count_apply, set_err_apply, CHECK_ERROR_apply, hA, if_true, ite_apply_M,
        returns_ite, crash_apply, returns_halt, pure_apply, printf_apply, modify_apply,
        clGetDeviceIDs_list_apply, List.length_append, List.length_singleton, hB, implies_true,
        true_and, not_lt, true_implies, and_true]
      intro _ h2
      refine returns_for_up_to
        (fun s1 => 2 ≤ s1.device_num ∧ s1.device_list.length = s1.device_num)
        ⟨h2, List.length_range _⟩ ?_ (fun _ h => h)
      intro i s1 ⟨g1, g2⟩
      simp [clGetDeviceInfo_apply, CHECK_ERROR_apply, g1, g2]
    · simp [get_devices, clGetDeviceIDs_count_apply, CHECK_ERROR_apply, hA,
        clGetDeviceIDs_list_apply, hB, crash_apply]
  · simp [get_devices, clGetDeviceIDs_count_apply, CHECK_ERROR_apply, hA]

theorem create_queues_returns (s : State) :
    (create_queues env s).returns fun _ s1 =>
      s1.device_num = s.device_num ∧ s1.queue_list.length = s.device_num := by
  simp only [create_queues, returns_bind, get_apply, returns_ok, clCreateContext, issue_apply,
    set_err_apply, CHECK_ERROR_apply, returns_ite, returns_halt, implies_true, and_true,
    printf_apply, modify_apply]
  intro _
  refine returns_for_up_to
    (fun s1 => s1.device_num = s.device_num ∧ s1.queue_list.length = s.device_num)
    ⟨rfl, List.length_replicate _ _⟩ ?_ (fun s1 h => by simpa using h)
  intro i s1 ⟨g1, g2⟩
  simp [clCreateCommandQueue_apply, store_queue, CHECK_ERROR_apply, g1, g2]

theorem create_buffers_returns (s : State) :
    (create_buffers env s).returns fun _ s1 =>
      s1.device_num = s.device_num ∧ s1.queue_list = s.queue_list ∧
        s1.buffer_list.length = s.device_num := by
  simp only [create_buffers, returns_bind, get_apply, returns_ok, modify_apply]
  refine returns_for_up_to
    (fun s1 => s1.device_num = s.device_num ∧ s1.queue_list = s.queue_list ∧
      s1.buffer_list.length = s.device_num)
    ⟨rfl, rfl, List.length_replicate _ _⟩ ?_ ?_
  · intro i s1 ⟨g1, g2, g3⟩
    simp [clCreateBuffer_apply, store_buffer, CHECK_ERROR_apply, g1, g2, g3]
  · intro s1 ⟨g1, g2, g3⟩
    simp only [returns_bind, get_apply, returns_ok, modify_apply, printf_apply,
      new_doubles_apply, fill_apply, returns_ite, returns_fault, implies_true, and_true]
    intro _ _
    refine returns_for_up_to
      (fun s2 => s2.device_num = s.device_num ∧ s2.queue_list = s.queue_list ∧
        s2.buffer_list.length = s.device_num)
      ⟨g1, g2, g3⟩ ?_ (fun s2 h => by simpa using h)
    intro i s2 ⟨k1, k2, k3⟩
    simp [clEnqueueWriteBuffer_apply, CHECK_ERROR_apply, k1, k2, k3]

/-- Whenever `initialize_platform` returns, from any state and whatever the
host answers, it leaves one queue and one buffer per device and at least two
devices. -/
theorem initialize_platform_returns (t : String) (s : State) :
    (initialize_platform env t s).returns fun _ s1 => Inv s1 := by
  simp only [initialize_platform, returns_bind, enter_apply, printf_apply, returns_ok]
  refine returns_mono (returns_any _) fun _ s1 _ => ?_
  refine returns_mono (returns_any _) fun _ s2 _ => ?_
  refine returns_mono (get_devices_returns env s2) fun _ s3 ⟨h1, _⟩ => ?_
  refine returns_mono (create_queues_returns env s3) fun _ s4 ⟨h3, h4⟩ => ?_
  refine returns_mono (create_buffers_returns env s4) fun _ s5 ⟨h5, h6, h7⟩ => ?_
  refine ⟨⟨?_, ?_⟩, ?_⟩
  · show s5.queue_list.length = s5.device_num
    rw [h6, h4, h5, h3]
  · show s5.buffer_list.length = s5.device_num
    rw [h7, h5]
  · show 2 ≤ s5.device_num
    rw [h5, h3]; exact h1

end SetupReturns

/-! ## The claims -/

section Claims
variable (env : Env)

theorem loop_from_zero (body : Nat → M Unit) (i : Nat) (s : State) :
    loop_from body i 0 s = .ok () s := rfl

/-- Setup on a host with the target platform alone and its two devices, when
the first fourteen calls of the run succeed, leaves the process in `s_two`. -/
theorem setup_two (hp : env.platforms = [⟨target, ["gpu0", "gpu1"]⟩])
    (hst : ∀ k, k < 14 → env.status k = CL_SUCCESS) (hd : ∀ k, env.dis k = k)
    (ha : env.alloc 9 = true) :
    initialize_platform env target (State.start ["prog", "9"]) = .ok () s_two := by
  have h9 : (9 : Nat) ≤ INT_MAX := by decide
  have hf : filled env [0, 0, 0, 0, 0, 0, 0, 0, 0] 9 = host_two := by
    simp [filled, hd, host_two]
  have h1 : to_cl_uint (atoi "9") = 9 := by decide
  have h2 : to_cl_int 9 = 9 := by decide
  have h3 : env.platform_name 0 = target := by simp [Env.platform_name, hp]
  have h4 : env.device_count 0 = 2 := by simp [Env.device_count, hp]
  have h5 : to_cl_int 0 = 0 := by decide
  have h6 : env.platforms.length = 1 := by simp [hp]
  have h7 : env.device_name 0 0 = "gpu0" := by simp [Env.device_name, hp]
  have h8 : env.device_name 0 1 = "gpu1" := by simp [Env.device_name, hp]
  simp [State.start, h1, h2, h3, h4, h5, h6, h7, h8, hst, initialize_platform, get_platforms,
    select_platform, platform_search, get_devices, create_queues, create_buffers, for_up_to,
    loop_from_succ, loop_from_zero, bind_apply, clGetPlatformIDs_count_apply,
    clGetPlatformIDs_list_apply, clGetPlatformInfo_apply, clGetDeviceIDs_count_apply,
    clGetDeviceIDs_list_apply, clGetDeviceInfo_apply, clCreateContext,
    clCreateCommandQueue_apply, clCreateBuffer_apply, clEnqueueWriteBuffer_apply, store_queue,
    store_buffer, index, CHECK_ERROR_apply, State.init, List.range_succ, s_two, ha, fill_apply,
    h9, hf]

theorem env_two_succeeds : AllSucceed env_two := fun _ => rfl

theorem s_two_wf : WF s_two := ⟨rfl, rfl⟩

theorem s_two_ready : Ready s_two := ⟨⟨s_two_wf, by decide⟩, rfl⟩

/-- C1 (the input on which the code departs from the claim): every negative
`int` becomes a `cl_uint` above 8; the argument `-5` reads as 4294967291, which
passes the size check, so `main` prints no usage message, enters
`initialize_platform` and enumerates the platforms; here the host has none and
setup ends the process. -/
theorem negative_size_reaches_setup :
    (∀ v : Int, -2147483648 ≤ v → v < 0 → 8 < to_cl_uint v) ∧
    atoi "-5" = -5 ∧ to_cl_uint (atoi "-5") = 4294967291 ∧
    ∃ s, run_main env_none ["prog", "-5"] = .halt EXIT_FAILURE s ∧
      s.entered = [.initialize_platform] ∧
      s.calls = [.clGetPlatformIDs_count, .clGetPlatformIDs_list 0] ∧
      s.out = [.buffer_size (-5), separator, .text "  clGetPlatformIDs....... ok"] ∧
      s.errout = [.crash "Can't find the required platform"] := by
  refine ⟨fun v h1 h2 => by unfold to_cl_uint; omega, by decide, by decide, ?_⟩
  have h1 : to_cl_uint (atoi (["prog", "-5"].getD 1 "")) = 4294967291 := by decide
  have h2 : to_cl_int 4294967291 = -5 := by decide
  rw [main_valid env_none (show ValidArgs ["prog", "-5"] from ⟨rfl, by decide⟩)]
  simp only [State.start, h1, h2, initialize_platform, get_platforms, select_platform,
    platform_search, for_up_to, loop_from, bind_apply, enter_apply, printf_apply,
    clGetPlatformIDs_count_apply, clGetPlatformIDs_list_apply, set_err_apply, CHECK_ERROR_apply,
    modify_apply, get_apply, pure_apply, crash_apply, ite_apply_M, env_none, State.init,
    List.length_nil, List.length_cons, List.nil_append, List.cons_append, if_true]
  simp

/-- C2 (the input on which the code departs from the claim): with two devices,
`profile_migrate_operation(1, 0)` returns normally, having issued all four of
its API calls and printed its throughput line, whatever status its two
`clEnqueueMigrateMemObjects` calls return: only the global `err`, which holds
`CL_SUCCESS` on entry, and the status of the two waits are ever checked. -/
theorem migrate_status_unchecked {s : State} (hwf : WF s) (hn : s.device_num = 2)
    (herr : s.err = CL_SUCCESS)
    (hw1 : env.status (s.calls.length + 1) = CL_SUCCESS)
    (hw2 : env.status (s.calls.length + 3) = CL_SUCCESS) :
    ∃ s1, profile_migrate_operation env 1 0 s = .ok () s1 ∧
      s1.calls = s.calls ++ migrate_calls s 0 1 ∧
      throughput_lines s1 = throughput_lines s + 1 := by
  have hq0 : 0 < s.queue_list.length := by rw [hwf.1, hn]; decide
  have hq1 : 1 < s.queue_list.length := by rw [hwf.1, hn]; decide
  have hb0 : 0 < s.buffer_list.length := by rw [hwf.2, hn]; decide
  have hb1 : 1 < s.buffer_list.length := by rw [hwf.2, hn]; decide
  have h1 : (1 : Int).toNat = 1 := rfl
  by_cases hA : env.status s.calls.length = CL_SUCCESS <;>
    by_cases hB : env.status (s.calls.length + 2) = CL_SUCCESS <;>
    simp [profile_migrate_operation, bind_apply, hn, for_up_to, h1,
      loop_from_succ, loop_from_zero, migrate_round, index_apply _ _ _ hq0,
      index_apply _ _ _ hq1, index_apply _ _ _ hb0, index_apply _ _ _ hb1,
      clEnqueueMigrateMemObjects, clWaitForEvents, CHECK_ERROR_apply, herr, hA, hB, hw1, hw2,
      migrate_calls, State.queue, State.buffer, throughput_lines, List.countP_append,
      migrate_line]

/-- Witness of C2: after setup on two devices, the first
`clEnqueueMigrateMemObjects` call returns `CL_OUT_OF_RESOURCES`; the routine
goes on to wait, migrate and wait again, and prints its throughput line. -/
theorem migrate_status_unchecked_witness :
    initialize_platform (env_fault 14) target (State.start ["prog", "9"]) = .ok () s_two ∧
    (env_fault 14).status s_two.calls.length = -5 ∧
    ∃ s1, profile_migrate_operation (env_fault 14) 1 0 s_two = .ok () s1 ∧
      s1.calls = s_two.calls ++ [.clEnqueueMigrateMemObjects 0 1, .clWaitForEvents,
        .clEnqueueMigrateMemObjects 1 0, .clWaitForEvents] ∧
      throughput_lines s1 = throughput_lines s_two + 1 :=
  ⟨setup_two (env_fault 14) rfl (fun k hk => by simp [env_fault]; omega) (fun _ => rfl) rfl,
    by decide,
    migrate_status_unchecked (env_fault 14) s_two_wf rfl rfl (by decide) (by decide)⟩

/-- Setup as `main` runs it, for any target name: what holds when it returns,
when it ends the process and when it stops on a fault. -/
theorem setup_outcome (t : String) (argv : List String) :
    (initialize_platform env t (State.start argv)).ends
      (fun _ s1 => Inv s1 ∧ s1.err = CL_SUCCESS ∧ Quiet s1 ∧
        s1.platform_id = platform_id_after env t (-1) env.platforms.length ∧
        0 ≤ s1.platform_id ∧
        s1.device_num = env.device_count s1.platform_id.toNat ∧ s1.errout = [] ∧
        env.alloc (State.start argv).buffer_size = true ∧
        (State.start argv).buffer_size ≤ INT_MAX)
      (fun c s1 => c = EXIT_FAILURE ∧ (Discovering s1 ∨ 2 ≤ s1.device_num) ∧
        (¬AllSucceed env ∨
          (platform_id_after env t (-1) env.platforms.length < 0 ∧
            s1.errout = [.crash "Can't find the required platform"]) ∨
          (s1.platform_id = platform_id_after env t (-1) env.platforms.length ∧
            0 ≤ s1.platform_id ∧ s1.device_num = env.device_count s1.platform_id.toNat ∧
            env.device_count s1.platform_id.toNat < 2 ∧
            s1.errout = [.crash "Not enough devices are available"])))
      (fun f s1 => 2 ≤ s1.device_num ∧ Quiet s1 ∧
        s1.platform_id = platform_id_after env t (-1) env.platforms.length ∧
        0 ≤ s1.platform_id ∧
        s1.device_num = env.device_count s1.platform_id.toNat ∧ s1.errout = [] ∧
        ((f = .bad_alloc ∧ env.alloc (State.start argv).buffer_size = false) ∨
          (f = .overflow ∧ env.alloc (State.start argv).buffer_size = true ∧
            INT_MAX < (State.start argv).buffer_size))) :=
  initialize_platform_spec env t (start_discovering argv) (by rw [start_platform_id]; decide)

/-- Setup returns normally, with the platform the search ends on, when every
call succeeds, that platform has two devices or more, the host allocates the
host buffer and `buffer_size` is an `int`. -/
theorem setup_selects (t : String) (argv : List String) (hs : AllSucceed env) {p : Nat}
    (hsel : platform_id_after env t (-1) env.platforms.length = (p : Int))
    (hdev : 2 ≤ env.device_count p)
    (ha : env.alloc (State.start argv).buffer_size = true)
    (hm : (State.start argv).buffer_size ≤ INT_MAX) :
    ∃ s, initialize_platform env t (State.start argv) = .ok () s ∧ s.platform_id = (p : Int) := by
  have hi := setup_outcome env t argv
  rw [hsel] at hi
  cases hinit : initialize_platform env t (State.start argv) with
  | ok a s1 =>
    rw [hinit] at hi
    exact ⟨s1, rfl, hi.2.2.2.1⟩
  | halt c s1 =>
    rw [hinit] at hi
    obtain ⟨_, _, h3⟩ := hi
    rcases h3 with h3 | ⟨h3, _⟩ | ⟨h3, _, _, h5, _⟩
    · exact absurd hs h3
    · omega
    · rw [h3, Int.toNat_ofNat] at h5
      omega
  | oob s1 => rw [hinit] at hi; exact hi.elim
  | fault f s1 =>
    rw [hinit] at hi
    obtain ⟨_, _, _, _, _, _, h7⟩ := hi
    rcases h7 with ⟨_, h7⟩ | ⟨_, _, h7⟩
    · rw [ha] at h7; cases h7
    · omega

/-- Counterexample to C3 as stated: when two platforms carry the target name,
setup selects the second one (index 1), not the first match (index 0). -/
theorem search_selects_last_of_twins :
    env_twins.platform_name 0 = target ∧ env_twins.platform_name 1 = target ∧
    ∃ s, initialize_platform env_twins target (State.start ["prog", "9"]) = .ok () s ∧
      s.platform_id = 1 := by
  have hpid : platform_id_after env_twins target (-1) env_twins.platforms.length =
      ((1 : Nat) : Int) := by
    have h2 : env_twins.platforms.length = 2 := rfl
    have h1 : env_twins.platform_name 1 = target := by decide
    rw [h2]
    simp only [platform_id_after, h1, if_true]
    decide
  have hcount : 2 ≤ env_twins.device_count 1 := by decide
  exact ⟨by decide, by decide,
    setup_selects env_twins target ["prog", "9"] (fun _ => rfl) hpid hcount (by decide)
      (by decide)⟩

/-- C3 (amended): when every API call succeeds and enumeration returns at most
2^31 platforms (the indices a `cl_int` holds), setup ends with the fatal message
for a platform not found if and only if no platform name equals the target;
and when some name equals the target, `platform_id` is the largest index whose
name equals the target (the last match), however setup goes on from there. -/
theorem search_selects_last_match (t : String) (argv : List String) (hs : AllSucceed env)
    (hN : env.platforms.length ≤ 2147483648) :
    ((∃ s, initialize_platform env t (State.start argv) = .halt EXIT_FAILURE s ∧
        s.errout = [.crash "Can't find the required platform"]) ↔
      ∀ i, i < env.platforms.length → env.platform_name i ≠ t) ∧
    ∀ i, i < env.platforms.length → env.platform_name i = t →
      (∀ j, i < j → j < env.platforms.length → env.platform_name j ≠ t) →
      (initialize_platform env t (State.start argv)).state.platform_id = (i : Int) := by
  have hi := setup_outcome env t argv
  have hiff := platform_id_after_neg_iff env t (show (-1 : Int) < 0 by decide) _ hN
  have hlast : ∀ i, i < env.platforms.length → env.platform_name i = t →
      (∀ j, i < j → j < env.platforms.length → env.platform_name j ≠ t) →
      platform_id_after env t (-1) env.platforms.length = (i : Int) := by
    intro i h1 h2 h3
    rw [platform_id_after_last env t (-1) _ i h1 h2 h3, to_cl_int_small (by omega)]
  cases hinit : initialize_platform env t (State.start argv) with
  | ok a s1 =>
    rw [hinit] at hi
    obtain ⟨_, _, _, h4, h5, _, _⟩ := hi
    refine ⟨⟨fun ⟨s, h, _⟩ => (by cases h), fun h => ?_⟩, fun i h1 h2 h3 => ?_⟩
    · have := hiff.mpr h
      rw [h4] at h5
      omega
    · show s1.platform_id = _
      rw [h4, hlast i h1 h2 h3]
  | halt c s1 =>
    rw [hinit] at hi
    obtain ⟨hc, _, h3⟩ := hi
    rcases h3 with h3 | ⟨h3, h4⟩ | ⟨h3, h4, _, _, h6⟩
    · exact absurd hs h3
    · refine ⟨⟨fun _ => hiff.mp h3, fun _ => ⟨s1, by rw [hc], h4⟩⟩, fun i h1 h2 h3' => ?_⟩
      have := hlast i h1 h2 h3'
      omega
    · refine ⟨⟨fun ⟨s, h, he⟩ => ?_, fun h => ?_⟩, fun i h1 h2 h3' => ?_⟩
      · cases h
        rw [h6] at he
        simp at he
      · have := hiff.mpr h
        rw [h3] at h4
        omega
      · show s1.platform_id = _
        rw [h3, hlast i h1 h2 h3']
  | oob s1 => rw [hinit] at hi; exact hi.elim
  | fault f s1 =>
    rw [hinit] at hi
    obtain ⟨_, _, h4, h5, _, _, _⟩ := hi
    refine ⟨⟨fun ⟨s, h, _⟩ => (by cases h), fun h => ?_⟩, fun i h1 h2 h3 => ?_⟩
    · have := hiff.mpr h
      rw [h4] at h5
      omega
    · show s1.platform_id = _
      rw [h4, hlast i h1 h2 h3]

/-- Witness of C3: on the host with two target platforms, the last one is selected. -/
theorem search_selects_last_match_witness :
    AllSucceed env_twins ∧ env_twins.platforms.length ≤ 2147483648 ∧
    env_twins.platform_name 0 = target ∧ env_twins.platform_name 1 = target ∧
    (initialize_platform env_twins target (State.start ["prog", "9"])).state.platform_id = 1 :=
  ⟨fun _ => rfl, by simp [env_twins], by decide, by decide,
    (search_selects_last_match env_twins target ["prog", "9"] (fun _ => rfl)
      (by simp [env_twins])).2 1 (by simp [env_twins]) (by decide)
      (fun j h1 h2 => absurd h2 (by
        have : env_twins.platforms.length = 2 := rfl
        omega))⟩

/-- The run on the host with a single device: setup ends the process, with
`device_num` 1. -/
theorem one_device_run :
    ∃ s, run_main env_one ["prog", "1024"] = .halt EXIT_FAILURE s ∧ s.device_num = 1 := by
  have hv : ValidArgs ["prog", "1024"] := ⟨rfl, by decide⟩
  have h1 : to_cl_uint (atoi "1024") = 1024 := by decide
  have h2 : to_cl_int 1024 = 1024 := by decide
  have h3 : env_one.platform_name 0 = target := by decide
  have h4 : env_one.device_count 0 = 1 := by decide
  have h5 : to_cl_int 0 = 0 := by decide
  have h6 : env_one.platforms.length = 1 := rfl
  have hst : ∀ k, env_one.status k = CL_SUCCESS := fun _ => rfl
  rw [main_valid env_one hv]
  simp [State.start, h1, h2, h3, h4, h5, h6, hst, initialize_platform, get_platforms,
    select_platform, platform_search, get_devices, for_up_to, loop_from_succ, loop_from_zero,
    bind_apply, clGetPlatformIDs_count_apply, clGetPlatformIDs_list_apply,
    clGetPlatformInfo_apply, clGetDeviceIDs_count_apply, index, CHECK_ERROR_apply, crash_apply,
    State.init, List.range_succ]

/-- C4: in every run that reaches setup and ends with `device_num < 2`, the
process ended through a failure exit while it had done nothing but enumerate:
every API call issued is an enumeration call (no context, queue or buffer was
created), no throughput line is printed and no routine other than
`initialize_platform` was entered.  Conversely, from any state and whatever
the host answers, `initialize_platform` returns normally only with
`device_num ≥ 2`, and a run that entered any other routine has
`device_num ≥ 2`. -/
theorem few_devices_stop_in_setup (argv : List String) (hv : ValidArgs argv)
    (hfew : (run_main env argv).state.device_num < 2) :
    (∃ s, run_main env argv = .halt EXIT_FAILURE s ∧
      (∀ c ∈ s.calls, c.is_discovery = true) ∧ (∀ l ∈ s.out, l.is_throughput = false) ∧
      ∀ r ∈ s.entered, r = Routine.initialize_platform) ∧
    (∀ t s0 s, initialize_platform env t s0 = .ok () s → 2 ≤ s.device_num) ∧
    ∀ env2 argv2, (∃ r ∈ (run_main env2 argv2).state.entered, r ≠ Routine.initialize_platform) →
      2 ≤ (run_main env2 argv2).state.device_num := by
  refine ⟨?_, ?_, ?_⟩
  · have h := main_spec env argv
    cases hrun : run_main env argv with
    | ok code s =>
      rw [hrun] at h hfew
      rcases h with ⟨_, h2, _⟩ | ⟨_, _, h3⟩
      · exact absurd hv h2
      · exact absurd h3 (by simpa [Outcome.state] using hfew)
    | halt c s =>
      rw [hrun] at h hfew
      obtain ⟨h1, _, h3⟩ := h
      rcases h3 with h3 | h3
      · exact ⟨s, by rw [h1], h3.1, h3.2.1, h3.2.2⟩
      · exact absurd h3 (by simpa [Outcome.state] using hfew)
    | oob s => rw [hrun] at h; exact h.elim
    | fault f s =>
      rw [hrun] at h hfew
      exact absurd h.2.1 (by simpa [Outcome.state] using hfew)
  · intro t s0 s hinit
    have h := initialize_platform_returns env t s0
    rw [hinit] at h
    exact h.2
  · intro env2 argv2 ⟨r, hr, hne⟩
    have h := main_spec env2 argv2
    cases hrun : run_main env2 argv2 with
    | ok code s =>
      rw [hrun] at h hr
      rcases h with ⟨_, _, _, h4, _⟩ | ⟨_, _, h3⟩
      · simp [Outcome.state, h4] at hr
      · exact h3
    | halt c s =>
      rw [hrun] at h hr
      obtain ⟨_, _, h3⟩ := h
      rcases h3 with h3 | h3
      · exact absurd (h3.2.2 r hr) hne
      · exact h3
    | oob s => rw [hrun] at h; exact h.elim
    | fault f s =>
      rw [hrun] at h
      exact h.2.1

theorem one_device_run_few : (run_main env_one ["prog", "1024"]).state.device_num < 2 := by
  obtain ⟨s, h1, h2⟩ := one_device_run
  rw [h1]
  show s.device_num < 2
  omega

theorem valid_1024 : ValidArgs ["prog", "1024"] := ⟨rfl, by decide⟩

/-- Witness of C4: the host with a single device. -/
theorem few_devices_stop_in_setup_witness :
    ValidArgs ["prog", "1024"] ∧ (run_main env_one ["prog", "1024"]).state.device_num < 2 ∧
    ∃ s, run_main env_one ["prog", "1024"] = .halt EXIT_FAILURE s ∧
      (∀ c ∈ s.calls, c.is_discovery = true) ∧ (∀ l ∈ s.out, l.is_throughput = false) ∧
      ∀ r ∈ s.entered, r = Routine.initialize_platform :=
  ⟨valid_1024, one_device_run_few,
    (few_devices_stop_in_setup env_one ["prog", "1024"] valid_1024 one_device_run_few).1⟩

/-- A source index outside the device range makes `profile_copy_operation`
index `buffer_list` out of range: the routine does not check `src`. -/
theorem copy_unchecked_src {s : State} (hwf : WF s) (hn : 0 < s.device_num) {src : Nat}
    (hsrc : s.device_num ≤ src) {r : Int} (hr : 1 ≤ r) :
    ∃ s1, profile_copy_operation env r src s = .oob s1 := by
  obtain ⟨n, hn1⟩ : ∃ n, s.device_num = n + 1 := ⟨s.device_num - 1, by omega⟩
  obtain ⟨k, hk⟩ : ∃ k, r.toNat = k + 1 := ⟨r.toNat - 1, by omega⟩
  have hq0 : 0 < s.queue_list.length := by rw [hwf.1]; exact hn
  have hb : s.buffer_list.length ≤ src := by rw [hwf.2]; exact hsrc
  have h0 : ¬(0 = src) := by omega
  simp [profile_copy_operation, bind_apply, hn1, for_up_to, loop_from_succ, hk, copy_round,
    index_apply _ _ _ hq0, index_oob _ _ _ hb, h0]

/-- A destination index outside the device range makes
`profile_migrate_operation` index `queue_list` out of range: the routine does
not check `dst`. -/
theorem migrate_unchecked_dst {s : State} (hwf : WF s) (hn : 0 < s.device_num) {dst : Nat}
    (hdst : s.device_num ≤ dst) {r : Int} (hr : 1 ≤ r) :
    ∃ s1, profile_migrate_operation env r dst s = .oob s1 := by
  obtain ⟨n, hn1⟩ : ∃ n, s.device_num = n + 1 := ⟨s.device_num - 1, by omega⟩
  obtain ⟨k, hk⟩ : ∃ k, r.toNat = k + 1 := ⟨r.toNat - 1, by omega⟩
  have hq : s.queue_list.length ≤ dst := by rw [hwf.1]; exact hdst
  have h0 : ¬(0 = dst) := by omega
  simp [profile_migrate_operation, bind_apply, hn1, for_up_to, loop_from_succ, hk,
    migrate_round, index_oob _ _ _ hq, h0]

/-- C10: no run of the program indexes `queue_list` or `buffer_list` (or any
other handle array) out of range, whatever the host answers and whatever the
command line.  Setup, when it returns, from any state, leaves one queue and
one buffer per device and at least two devices, and from such a state the script never
indexes out of range.  The guarantee rests on that: the routines themselves do
not check `src` or `dst`, and index out of range when given an index that is
not below `device_num`. -/
theorem script_indices_in_range (argv : List String) :
    (∀ s, run_main env argv ≠ .oob s) ∧
    (∀ t s0 s, initialize_platform env t s0 = .ok () s →
      s.queue_list.length = s.device_num ∧ s.buffer_list.length = s.device_num ∧
        2 ≤ s.device_num ∧ ∀ s2, script env s ≠ .oob s2) ∧
    (∀ s src r, WF s → 0 < s.device_num → s.device_num ≤ src → 1 ≤ r →
      ∃ s1, profile_copy_operation env r src s = .oob s1) ∧
    ∀ s dst r, WF s → 0 < s.device_num → s.device_num ≤ dst → 1 ≤ r →
      ∃ s1, profile_migrate_operation env r dst s = .oob s1 := by
  refine ⟨fun s hrun => ?_, fun t s0 s hinit => ?_,
    fun s src r h1 h2 h3 h4 => copy_unchecked_src env h1 h2 h3 h4,
    fun s dst r h1 h2 h3 h4 => migrate_unchecked_dst env h1 h2 h3 h4⟩
  · have h := main_spec env argv
    rw [hrun] at h
    exact h
  · have h := initialize_platform_returns env t s0
    rw [hinit] at h
    refine ⟨h.1.1, h.1.2, h.2, fun s2 hs2 => ?_⟩
    have hsafe := script_safe env s h
    rw [hs2] at hsafe
    exact hsafe

/-- C8: with `n ≥ 2` devices and every API call succeeding, each call of
`profile_write_operation` or `profile_read_operation` prints exactly `n`
throughput lines, each call of `profile_copy_operation` or
`profile_migrate_operation` with an index below `n` prints exactly `n - 1`,
whatever `repeat` is; the fixed script of `main` prints `3n + 14(n - 1)`
throughput lines, and once setup has returned the run prints that many and
returns exit status 0.  Setup does return, and the whole run prints
`3n + 14(n - 1)` throughput lines and returns 0, when `buffer_size` is at most
`INT_MAX` and the host allocates the host buffer; that condition is needed:
without it a run stops on a fault in setup and prints no throughput line. -/
theorem throughput_line_counts (hs : AllSucceed env) {s : State} (hr : Ready s) (r : Int)
    {src dst : Nat} (hsrc : src < s.device_num) (hdst : dst < s.device_num)
    {argv : List String} (hv : ValidArgs argv) {p n : Nat} (hp : p < env.platforms.length)
    (hname : env.platform_name p = target)
    (hlast : ∀ j, p < j → j < env.platforms.length → env.platform_name j ≠ target)
    (hp31 : p < 2147483648) (hdev : env.device_count p = n) (hn : 2 ≤ n)
    (ha : env.alloc (State.start argv).buffer_size = true)
    (hm : (State.start argv).buffer_size ≤ INT_MAX) :
    (∃ s1, profile_write_operation env r s = .ok () s1 ∧
      throughput_lines s1 = throughput_lines s + s.device_num) ∧
    (∃ s1, profile_read_operation env r s = .ok () s1 ∧
      throughput_lines s1 = throughput_lines s + s.device_num) ∧
    (∃ s1, profile_copy_operation env r src s = .ok () s1 ∧
      throughput_lines s1 = throughput_lines s + (s.device_num - 1)) ∧
    (∃ s1, profile_migrate_operation env r dst s = .ok () s1 ∧
      throughput_lines s1 = throughput_lines s + (s.device_num - 1)) ∧
    (∃ s1, script env s = .ok () s1 ∧
      throughput_lines s1 =
        throughput_lines s + (3 * s.device_num + 14 * (s.device_num - 1))) ∧
    (∀ argv2 s0, ValidArgs argv2 →
      initialize_platform env target (State.start argv2) = .ok () s0 →
      ∃ s1, run_main env argv2 = .ok 0 s1 ∧
        throughput_lines s1 = 3 * s0.device_num + 14 * (s0.device_num - 1)) ∧
    (∃ s1, run_main env argv = .ok 0 s1 ∧ throughput_lines s1 = 3 * n + 14 * (n - 1)) ∧
    ∀ argv2, ValidArgs argv2 →
      (env.alloc (State.start argv2).buffer_size = false ∨
        INT_MAX < (State.start argv2).buffer_size) →
      ∃ f s1, run_main env argv2 = .fault f s1 ∧ throughput_lines s1 = 0 := by
  have hsel := selected_of_last env hp hname hlast hp31
  refine ⟨?_, ?_, ?_, ?_, ?_, fun argv2 s0 hv2 h0 => main_after_setup env hs hv2 h0,
    main_ok env hs hv hsel hdev hn ha hm,
    fun argv2 hv2 hbad => main_fault env hs hv2 hsel hdev hn hbad⟩
  · obtain ⟨s1, h1, _, _, h4⟩ := prints_write hs s.device_num r s hr rfl
    exact ⟨s1, h1, h4⟩
  · obtain ⟨s1, h1, _, _, h4⟩ := prints_read hs s.device_num r s hr rfl
    exact ⟨s1, h1, h4⟩
  · obtain ⟨s1, h1, _, _, h4⟩ := prints_copy hs s.device_num r hsrc s hr rfl
    exact ⟨s1, h1, h4⟩
  · obtain ⟨s1, h1, _, _, h4⟩ := prints_migrate hs s.device_num r hdst s hr rfl
    exact ⟨s1, h1, h4⟩
  · obtain ⟨s1, h1, _, _, h4⟩ := script_prints hs hr.1.2 s hr rfl
    exact ⟨s1, h1, h4⟩

theorem env_two_name : env_two.platform_name 0 = target := by decide

theorem env_two_count : env_two.device_count 0 = 2 := by decide

theorem env_two_last :
    ∀ j, 0 < j → j < env_two.platforms.length → env_two.platform_name j ≠ target := by
  intro j h1 h2
  have : env_two.platforms.length = 1 := rfl
  omega

theorem env_two_alloc_1024 : env_two.alloc (State.start ["prog", "1024"]).buffer_size = true := by
  decide

theorem size_1024_int : (State.start ["prog", "1024"]).buffer_size ≤ INT_MAX := by decide

theorem valid_minus_5 : ValidArgs ["prog", "-5"] := ⟨rfl, by decide⟩

theorem size_minus_5 : INT_MAX < (State.start ["prog", "-5"]).buffer_size := by decide

/-- Witness of C8: two devices, `buffer_size` 1024: twenty throughput lines and
exit status 0; with the argument `-5`, which reads as 4294967291, the run stops
on a fault in setup. -/
theorem throughput_line_counts_witness :
    AllSucceed env_two ∧ Ready s_two ∧ ValidArgs ["prog", "1024"] ∧
    env_two.alloc (State.start ["prog", "1024"]).buffer_size = true ∧
    (State.start ["prog", "1024"]).buffer_size ≤ INT_MAX ∧
    (∃ s1, run_main env_two ["prog", "1024"] = .ok 0 s1 ∧ throughput_lines s1 = 20) ∧
    ∃ f s1, run_main env_two ["prog", "-5"] = .fault f s1 ∧ throughput_lines s1 = 0 :=
  ⟨env_two_succeeds, s_two_ready, valid_1024, env_two_alloc_1024, size_1024_int,
    (throughput_line_counts env_two env_two_succeeds s_two_ready 100
      (show 0 < s_two.device_num by decide) (show 0 < s_two.device_num by decide) valid_1024
      (show 0 < env_two.platforms.length by decide) env_two_name env_two_last (by omega)
      env_two_count (Nat.le_refl 2) env_two_alloc_1024 size_1024_int).2.2.2.2.2.2.1,
    (throughput_line_counts env_two env_two_succeeds s_two_ready 100
      (show 0 < s_two.device_num by decide) (show 0 < s_two.device_num by decide) valid_1024
      (show 0 < env_two.platforms.length by decide) env_two_name env_two_last (by omega)
      env_two_count (Nat.le_refl 2) env_two_alloc_1024 size_1024_int).2.2.2.2.2.2.2
      ["prog", "-5"] valid_minus_5 (Or.inr size_minus_5)⟩

theorem buffer_mem_take {s : State} (hwf : WF s) {i : Nat} (hi : i < s.device_num) :
    s.buffer i ∈ s.buffer_list.take s.device_num := by
  have hb : i < s.buffer_list.length := by rw [hwf.2]; exact hi
  rw [← hwf.2, List.take_length]
  have : s.buffer i = s.buffer_list[i] := by
    simp [State.buffer, List.getD, List.getElem?_eq_getElem hb]
  rw [this]
  exact List.getElem_mem hb

/-- C5: when every API call succeeds, `profile_write_operation(r1)` with
`r1 ≥ 1` followed at once by `profile_read_operation(r2)`, for any `r2`, leaves
the host buffer with the contents it had before the write, and every device
buffer with those same contents. -/
theorem write_then_read_restores_host (hs : AllSucceed env) {s : State} (hwf : WF s)
    {r1 : Int} (h1 : 1 ≤ r1) (r2 : Int) :
    ∃ s1 s2, profile_write_operation env r1 s = .ok () s1 ∧
      profile_read_operation env r2 s1 = .ok () s2 ∧
      s2.buffer_host = s.buffer_host ∧
      ∀ i, i < s.device_num → s2.mem (s.buffer i) = some s.buffer_host := by
  have hwf1 : WF (write_served env r1 s s.device_num) := hwf
  have hr1 : r1.toNat ≠ 0 := by omega
  have hmem : ∀ i, i < s.device_num →
      (write_served env r1 s s.device_num).mem (s.buffer i) = some s.buffer_host := by
    intro i hi
    show (if r1.toNat ≠ 0 ∧ s.buffer i ∈ s.buffer_list.take s.device_num then
      some s.buffer_host else s.mem (s.buffer i)) = _
    rw [if_pos ⟨hr1, buffer_mem_take hwf hi⟩]
  refine ⟨_, _, profile_write_operation_ok hs hwf r1,
    profile_read_operation_ok hs hwf1 r2, ?_, hmem⟩
  show (if r2.toNat = 0 ∨ s.device_num = 0 then s.buffer_host
    else ((write_served env r1 s s.device_num).mem (s.buffer (s.device_num - 1))).getD []) = _
  split
  · rfl
  · rename_i h
    rw [hmem _ (by omega)]
    rfl

/-- Witness of C5: two devices, one hundred writes, one hundred reads. -/
theorem write_then_read_restores_host_witness :
    AllSucceed env_two ∧ WF s_two ∧
    ∃ s1 s2, profile_write_operation env_two 100 s_two = .ok () s1 ∧
      profile_read_operation env_two 100 s1 = .ok () s2 ∧
      s2.buffer_host = s_two.buffer_host ∧
      ∀ i, i < s_two.device_num → s2.mem (s_two.buffer i) = some s_two.buffer_host :=
  ⟨env_two_succeeds, s_two_wf,
    write_then_read_restores_host env_two env_two_succeeds s_two_wf (by decide) 100⟩

theorem mem_others {d i n : Nat} : i ∈ others d n ↔ i < n ∧ i ≠ d := by
  simp [others]

/-- C6: when every API call succeeds, `profile_copy_operation(repeat, src)` with
`src` below the device count and `repeat ≥ 1` issues, for each device index
`i ≠ src` in increasing order and for no other, exactly `repeat` times the pair
of calls "copy `buffer[src]` to `buffer[i]` on `queue[i]`, wait"; it ends with
every device buffer holding the contents `buffer[src]` had before the call (so
a read of any destination matches a read of the source), and leaves the host
buffer unchanged. -/
theorem copy_spreads_source (hs : AllSucceed env) {s : State} (hwf : WF s) {src : Nat}
    (hsrc : src < s.device_num) {r : Int} (hr : 1 ≤ r) :
    ∃ s1, profile_copy_operation env r src s = .ok () s1 ∧
      s1.calls = s.calls ++ (((List.range s.device_num).filter fun i => i ≠ src).map fun i =>
        (List.replicate r.toNat
          [ApiCall.clEnqueueCopyBuffer (s.queue i) (s.buffer src) (s.buffer i),
            ApiCall.clWaitForEvents]).flatten).flatten ∧
      (∀ i, i < s.device_num → s1.mem (s.buffer i) = s.mem (s.buffer src)) ∧
      s1.mem (s.buffer src) = s.mem (s.buffer src) ∧
      s1.buffer_host = s.buffer_host ∧ s1.buffer_list = s.buffer_list := by
  have hr1 : r.toNat ≠ 0 := by omega
  have hmem : ∀ i, i < s.device_num →
      (copy_served env r src s s.device_num).mem (s.buffer i) = s.mem (s.buffer src) := by
    intro i hi
    show (if r.toNat ≠ 0 ∧ s.buffer i ∈ (others src s.device_num).map s.buffer then
      s.mem (s.buffer src) else s.mem (s.buffer i)) = _
    by_cases hisrc : i = src
    · subst hisrc
      split <;> rfl
    · rw [if_pos ⟨hr1, List.mem_map.mpr ⟨i, mem_others.mpr ⟨hi, hisrc⟩, rfl⟩⟩]
  exact ⟨_, profile_copy_operation_ok hs hwf r hsrc, rfl, hmem, hmem src hsrc, rfl, rfl⟩

/-- Witness of C6: two devices, source 0, one hundred repetitions. -/
theorem copy_spreads_source_witness :
    AllSucceed env_two ∧ WF s_two ∧
    ∃ s1, profile_copy_operation env_two 100 0 s_two = .ok () s1 ∧
      s1.calls = s_two.calls ++ (((List.range s_two.device_num).filter fun i => i ≠ 0).map
        fun i => (List.replicate (100 : Int).toNat
          [ApiCall.clEnqueueCopyBuffer (s_two.queue i) (s_two.buffer 0) (s_two.buffer i),
            ApiCall.clWaitForEvents]).flatten).flatten ∧
      (∀ i, i < s_two.device_num → s1.mem (s_two.buffer i) = s_two.mem (s_two.buffer 0)) ∧
      s1.mem (s_two.buffer 0) = s_two.mem (s_two.buffer 0) ∧
      s1.buffer_host = s_two.buffer_host ∧ s1.buffer_list = s_two.buffer_list :=
  ⟨env_two_succeeds, s_two_wf,
    copy_spreads_source env_two env_two_succeeds s_two_wf (show 0 < s_two.device_num by decide)
      (by decide)⟩

/-- C9 (what the code does instead): when every API call succeeds, after any
number `j ≥ 1` of rounds of the inner loop of `profile_migrate_operation` for
device `i ≠ dst`, the buffer `buffer[i]` is placed on the device of
`queue[dst]`, and it is `buffer[dst]` that was given to the device of
`queue[i]`: the second migration of a round moves `buffer[dst]`, not
`buffer[i]`, so `buffer[i]` never returns to device `i`. -/
theorem migrate_round_keeps_buffer_away (hs : AllSucceed env) {s : State} (hwf : WF s)
    (herr : s.err = CL_SUCCESS) {dst i : Nat} (hdst : dst < s.device_num)
    (hi : i < s.device_num) (hne : s.buffer i ≠ s.buffer dst) {j : Nat} (hj : 1 ≤ j) :
    ∃ s1, for_up_to j (fun _ => migrate_round env dst i) s = .ok () s1 ∧
      s1.owner (s.buffer i) = s.queue dst ∧ s1.owner (s.buffer dst) = s.queue i := by
  refine ⟨_, migrate_rounds_ok hs hwf herr hdst hi j, ?_, ?_⟩
  · show (if j = 0 then s.owner else migrate_owner s dst i s.owner) (s.buffer i) = _
    rw [if_neg (by omega)]
    simp [migrate_owner, Function.update_apply, hne]
  · show (if j = 0 then s.owner else migrate_owner s dst i s.owner) (s.buffer dst) = _
    rw [if_neg (by omega)]
    simp [migrate_owner, Function.update_apply]

/-- Witness of C9: two devices, `dst` 0: after one round, and after three,
buffer 1 is on device 0 and buffer 0 on device 1, although buffer 1 started on
device 1. -/
theorem migrate_round_keeps_buffer_away_witness :
    s_two.owner (s_two.buffer 1) = 1 ∧
    (∃ s1, for_up_to 1 (fun _ => migrate_round env_two 0 1) s_two = .ok () s1 ∧
      s1.owner (s_two.buffer 1) = 0 ∧ s1.owner (s_two.buffer 0) = 1) ∧
    ∃ s1, for_up_to 3 (fun _ => migrate_round env_two 0 1) s_two = .ok () s1 ∧
      s1.owner (s_two.buffer 1) = 0 ∧ s1.owner (s_two.buffer 0) = 1 :=
  ⟨rfl,
    migrate_round_keeps_buffer_away env_two env_two_succeeds s_two_wf rfl
      (show 0 < s_two.device_num by decide) (show 1 < s_two.device_num by decide)
      (show s_two.buffer 1 ≠ s_two.buffer 0 by decide) (Nat.le_refl 1),
    migrate_round_keeps_buffer_away env_two env_two_succeeds s_two_wf rfl
      (show 0 < s_two.device_num by decide) (show 1 < s_two.device_num by decide)
      (show s_two.buffer 1 ≠ s_two.buffer 0 by decide) (by decide)⟩

/-- C7: in exact rational arithmetic, when every API call succeeds, the lines
the four routines print carry these figures, `t` being the time measured
around the inner loop for the device: write, read and copy print `t` seconds
and the rate `(buffer_size * 8 / 10^9) / t * repeat`; migrate prints `t / 2`
seconds and the rate `(buffer_size * 8 / 10^9) / t * 2 * repeat`.  So for every
`t ≠ 0` each printed GB/s figure is the printed GB figure divided by the printed
seconds figure, multiplied by `repeat`. -/
theorem throughput_figures (hs : AllSucceed env) {s : State} (hwf : WF s)
    (herr : s.err = CL_SUCCESS) (r : Int) {src dst : Nat} (hsrc : src < s.device_num)
    (hdst : dst < s.device_num) (i j : Nat) (t : ℚ) (ht : t ≠ 0) :
    ((profile_write_operation env r s).state.out = s.out ++
      (List.range s.device_num).map fun k =>
        write_line s.buffer_size k r (elapsed env (s.ticks + 2 * k))) ∧
    ((profile_read_operation env r s).state.out = s.out ++
      (List.range s.device_num).map fun k =>
        read_line s.buffer_size k r (elapsed env (s.ticks + 2 * k))) ∧
    ((profile_copy_operation env r src s).state.out = s.out ++
      ((List.range s.device_num).filter fun k => k ≠ src).map fun k =>
        copy_line s.buffer_size src k r
          (elapsed env (s.ticks + 2 * ((List.range k).filter fun m => m ≠ src).length))) ∧
    ((profile_migrate_operation env r dst s).state.out = s.out ++
      ((List.range s.device_num).filter fun k => k ≠ dst).map fun k =>
        migrate_line s.buffer_size k dst r
          (elapsed env (s.ticks + 2 * ((List.range k).filter fun m => m ≠ dst).length))) ∧
    write_line s.buffer_size i r t = .throughput (.Hto i) r
      ((s.buffer_size : ℚ) * 8 / 10 ^ 9) t ((s.buffer_size : ℚ) * 8 / 10 ^ 9 / t * (r : ℚ)) ∧
    read_line s.buffer_size i r t = .throughput (.toH i) r
      ((s.buffer_size : ℚ) * 8 / 10 ^ 9) t ((s.buffer_size : ℚ) * 8 / 10 ^ 9 / t * (r : ℚ)) ∧
    copy_line s.buffer_size i j r t = .throughput (.to i j) r
      ((s.buffer_size : ℚ) * 8 / 10 ^ 9) t ((s.buffer_size : ℚ) * 8 / 10 ^ 9 / t * (r : ℚ)) ∧
    migrate_line s.buffer_size i j r t = .throughput (.mg i j) r
      ((s.buffer_size : ℚ) * 8 / 10 ^ 9) (t / 2)
      ((s.buffer_size : ℚ) * 8 / 10 ^ 9 / t * 2 * (r : ℚ)) ∧
    (write_line s.buffer_size i r t).rate_agrees ∧ (read_line s.buffer_size i r t).rate_agrees ∧
    (copy_line s.buffer_size i j r t).rate_agrees ∧
    (migrate_line s.buffer_size i j r t).rate_agrees := by
  have hg : gigabytes s.buffer_size = (s.buffer_size : ℚ) * 8 / 10 ^ 9 := by
    unfold gigabytes; norm_num
  refine ⟨?_, ?_, ?_, ?_, ?_, ?_, ?_, ?_, ?_, ?_, ?_, ?_⟩
  · rw [profile_write_operation_ok hs hwf r]; rfl
  · rw [profile_read_operation_ok hs hwf r]; rfl
  · rw [profile_copy_operation_ok hs hwf r hsrc]; rfl
  · rw [profile_migrate_operation_ok hs hwf herr r hdst]; rfl
  · simp only [write_line, hg]
  · simp only [read_line, hg]
  · simp only [copy_line, hg]
  · simp only [migrate_line, hg]
  · simp only [write_line, Line.rate_agrees]
  · simp only [read_line, Line.rate_agrees]
  · simp only [copy_line, Line.rate_agrees]
  · simp only [migrate_line, Line.rate_agrees]
    field_simp

theorem elapsed_env_two (k : Nat) : elapsed env_two k = 1 := by
  simp [elapsed, env_two]

/-- Witness of C7: two devices, `buffer_size` 9, one hundred repetitions, one
second measured: the migrate line shows half a second and a rate of
`(72 / 10^9) / 1 * 2 * 100` GB/s. -/
theorem throughput_figures_witness :
    AllSucceed env_two ∧ WF s_two ∧ (1 : ℚ) ≠ 0 ∧
    (profile_migrate_operation env_two 100 0 s_two).state.out = s_two.out ++
      [.throughput (.mg 1 0) 100 ((9 : ℚ) * 8 / 10 ^ 9) (1 / 2)
        ((9 : ℚ) * 8 / 10 ^ 9 / 1 * 2 * 100)] ∧
    (migrate_line 9 1 0 100 1).rate_agrees := by
  have h := throughput_figures env_two env_two_succeeds s_two_wf rfl 100
    (show 0 < s_two.device_num by decide) (show 0 < s_two.device_num by decide) 1 0 1
    one_ne_zero
  refine ⟨env_two_succeeds, s_two_wf, one_ne_zero, ?_, h.2.2.2.2.2.2.2.2.2.2.2⟩
  have h4 := h.2.2.2.1
  have h8 := h.2.2.2.2.2.2.2.1
  have hl : ((List.range s_two.device_num).filter fun k => k ≠ 0) = [1] := by decide
  have hl2 : ((List.range 1).filter fun m => m ≠ 0) = [] := by decide
  rw [h4, hl]
  simp only [List.map_cons, List.map_nil, hl2, List.length_nil, Nat.mul_zero, Nat.add_zero,
    elapsed_env_two]
  rw [show s_two.buffer_size = 9 from rfl] at h8 ⊢
  rw [h8]
  norm_num

end Claims

end OpenCLD2D
